import Mathlib

/-!
Verification of the CCDC mol2 parser (`src/parser/ccdcmol2-parser.ts`) and its
space-group lookup collaborator, via a shallow embedding in Lean.

JavaScript numbers are modelled as `Option ℚ` (`none` standing for `NaN`);
JavaScript strings as Lean `String`/`List Char`.  The embedded definitions keep
the source names where Lean allows it.
-/

/-- A JavaScript number: `none` models `NaN`, `some q` a (finite) numeric value.
The floating-point values appearing in this parser are small decimals and
results of single divisions by digits, modelled exactly as rationals. -/
abbrev JSNum := Option ℚ

/-- Models ASCII uppercasing of a single character, as performed by
`String.prototype.toUpperCase` on the ASCII range relevant to operator
strings. -/
def upperChar (c : Char) : Char :=
  if 'a' ≤ c ∧ c ≤ 'z' then Char.ofNat (c.toNat - 32) else c

/-- Models `String.prototype.toUpperCase` (ASCII range). -/
def jsToUpperCase (s : String) : String :=
  ⟨s.data.map upperChar⟩

/-- Splits a character list at every occurrence of the separator character,
keeping empty segments, as `String.prototype.split` does with a one-character
separator string: `"a;;b".split(";") = ["a","","b"]`, `"".split(";") = [""]`. -/
def splitCharList (sep : Char) : List Char → List (List Char)
  | [] => [[]]
  | c :: cs =>
    match splitCharList sep cs with
    | [] => [[]]
    | h :: t => if c = sep then [] :: h :: t else (c :: h) :: t

/-- Models `String.prototype.split` with a one-character separator. -/
def jsSplitChar (sep : Char) (s : String) : List String :=
  (splitCharList sep s.data).map (fun l => ⟨l⟩)

/-- Models the JavaScript whitespace class `\s` on the characters that occur
in this format (space, tab, CR, LF, FF, VT). -/
def isJsWhitespace (c : Char) : Bool :=
  c = ' ' ∨ c = '\t' ∨ c = '\r' ∨ c = '\n' ∨ c = '\x0c' ∨ c = '\x0b'

/-- Accumulator-based tokenizer splitting on runs of whitespace.  On trimmed
input this agrees with `String.prototype.split(/\s+/)` (which the parser only
ever applies to trimmed, non-empty lines). -/
def wsTokensAux : List Char → List Char → List (List Char)
  | [], acc => if acc = [] then [] else [acc.reverse]
  | c :: cs, acc =>
    if isJsWhitespace c then
      if acc = [] then wsTokensAux cs []
      else acc.reverse :: wsTokensAux cs []
    else wsTokensAux cs (c :: acc)

/-- Models `line.split(reWhitespace)` (`reWhitespace = /\s+/`) as applied to
the already-trimmed lines of the scanner. -/
def jsSplitWs (s : String) : List String :=
  (wsTokensAux s.data []).map (fun l => ⟨l⟩)

/-- Models `String.prototype.trim` on the whitespace characters of this
format: drop leading and trailing whitespace. -/
def jsTrim (s : String) : String :=
  ⟨((s.data.dropWhile isJsWhitespace).reverse.dropWhile isJsWhitespace).reverse⟩

/-- Models the character read `line[0]`: `none` is the `undefined` read on an
empty string. -/
def jsCharAt0 (s : String) : Option Char :=
  s.data.head?

/-- Numeric value of a list of decimal digit characters. -/
def digitsVal (l : List Char) : ℕ :=
  l.foldl (fun a c => a * 10 + (c.toNat - 48)) 0

/-- Models `parseFloat` on the tokens of this format: optional sign, decimal
digits, optional fractional part.  `none` models `NaN` (no numeric prefix). -/
def jsParseFloat (s : String) : Option ℚ :=
  let l := s.data
  let sign : ℚ := match l with | '-' :: _ => -1 | _ => 1
  let l1 := match l with | '-' :: t => t | '+' :: t => t | _ => l
  let ds := l1.takeWhile Char.isDigit
  let rest := l1.drop ds.length
  match rest with
  | '.' :: t =>
    let fs := t.takeWhile Char.isDigit
    if ds = [] ∧ fs = [] then none
    else some (sign * ((digitsVal ds : ℚ) + (digitsVal fs : ℚ) / ((10 : ℚ) ^ fs.length)))
  | _ => if ds = [] then none else some (sign * (digitsVal ds : ℚ))

/-- Models `parseFloat` applied to a possibly-`undefined` field
(`parseFloat(undefined)` is `NaN`). -/
def jsParseFloatOpt (t : Option String) : JSNum :=
  match t with
  | none => none
  | some s => jsParseFloat s

/-- Models `parseInt` (decimal) on the tokens of this format: optional sign and
leading decimal digits; `none` models `NaN`. -/
def jsParseInt (s : String) : Option Int :=
  let l := s.data
  let sign : Int := match l with | '-' :: _ => -1 | _ => 1
  let l1 := match l with | '-' :: t => t | '+' :: t => t | _ => l
  let ds := l1.takeWhile Char.isDigit
  if ds = [] then none else some (sign * (digitsVal ds : Int))

/-- Models `parseInt` applied to a possibly-`undefined` field. -/
def jsParseIntOpt (t : Option String) : Option Int :=
  match t with
  | none => none
  | some s => jsParseInt s

/-! ## The operator compiler (`_setSymmetryOperations`)

A three.js `Matrix4` is its 16-entry column-major `elements` array, modelled as
a `List ℚ` of length 16 (`me[ 0 + row ]`, `me[ 4 + row ]`, `me[ 8 + row ]` are
the X-, Y-, Z-coefficients of `row`; `me[ 12 + row ]` its translation). -/

/-- A three.js 4×4 matrix: the column-major `elements` array. -/
abbrev Mat4 := List ℚ

/-- Models `reInteger = /^[1-9]$/` applied to a single character. -/
def reIntegerTest (c : Char) : Bool :=
  '1' ≤ c ∧ c ≤ '9'

/-- Integer value of a digit character (the `parseInt(c)` of the compiler). -/
def digitVal (c : Char) : ℚ :=
  ((c.toNat - 48 : ℕ) : ℚ)

/-- Scratch state of the per-component character scan of
`_setSymmetryOperations`: the `negate` and `denominator` flags, the matrix
elements being mutated, and the warnings logged so far (`Log.warn`). -/
structure SymScan where
  negate : Bool
  denominator : Bool
  me : Mat4
  warnings : List String
  deriving DecidableEq

/-- One character step of the operator-compiler scan, translated branch by
branch from the `for` loop of `_setSymmetryOperations`. -/
def processChar (row : ℕ) (st : SymScan) (c : Char) : SymScan :=
  if c = '-' then { st with negate := true }
  else if c = '+' then { st with negate := false }
  else if c = '/' then { st with denominator := true }
  else if c = 'X' then { st with me := st.me.set (0 + row) (if st.negate then -1 else 1) }
  else if c = 'Y' then { st with me := st.me.set (4 + row) (if st.negate then -1 else 1) }
  else if c = 'Z' then { st with me := st.me.set (8 + row) (if st.negate then -1 else 1) }
  else if reIntegerTest c then
    if st.denominator then
      { st with me := st.me.set (12 + row) (st.me.getD (12 + row) 0 / digitVal c) }
    else
      { st with me := st.me.set (12 + row) (digitVal c) }
  else
    { st with warnings :=
        st.warnings ++ ["getSymmetryOperations: unknown token " ++ c.toString] }

/-- One component (`symop.forEach` body): `negate` and `denominator` start
fresh, the matrix elements and warnings carry over. -/
def processComponent (row : ℕ) (mw : Mat4 × List String) (elm : String) :
    Mat4 × List String :=
  let st := elm.data.foldl (processChar row)
    { negate := false, denominator := false, me := mw.1, warnings := mw.2 }
  (st.me, st.warnings)

/-- The matrix each operator starts from:
`new Matrix4().set(0,0,0,0, 0,0,0,0, 0,0,0,0, 0,0,0,1)` — column-major
elements, so only index 15 is 1. -/
def matrixZero : Mat4 :=
  [0, 0, 0, 0, 0, 0, 0, 0, 0, 0, 0, 0, 0, 0, 0, 1]

/-- Compiles one operator triplet: fold the components over the rows in order
(`row` starts at 0 and is incremented after each component). -/
def compileOperator (symop : List String) : Mat4 × List String :=
  symop.enum.foldl (fun mw re => processComponent re.1 mw re.2) (matrixZero, [])

/-- The dictionary key of an operator: `symop.toString()`, i.e. the components
joined with commas. -/
def keyOf (symop : List String) : String :=
  String.intercalate "," symop

/-- Models assignment `d[k] = v` on a JavaScript object: an existing key keeps
its insertion position, a new key is appended. -/
def dictInsert (d : List (String × Mat4)) (k : String) (v : Mat4) :
    List (String × Mat4) :=
  if d.any (fun p => p.1 = k) then
    d.map (fun p => if p.1 = k then (k, v) else p)
  else d ++ [(k, v)]

/-- `_setSymmetryOperations`: compile every operator and store it under its
string key.  (The `operators === undefined` guard of the source cannot fire in
the embedding, whose argument is always a list.) -/
def setSymmetryOperations (operators : List (List String)) :
    List (String × Mat4) :=
  operators.foldl (fun d symop => dictInsert d (keyOf symop) (compileOperator symop).1) []

/-- The envelope operator extraction of `_parse`: split the
`spacegroupOperators` string on semicolons, each triplet on commas, and
uppercase every component. -/
def parseEnvelopeOperators (s : String) : List (List String) :=
  (jsSplitChar ';' s).map (fun op => (jsSplitChar ',' op).map jsToUpperCase)

/-- The translation vector of a compiled matrix (`elements` 12, 13, 14). -/
def translationOf (m : Mat4) : ℚ × ℚ × ℚ :=
  (m.getD 12 0, m.getD 13 0, m.getD 14 0)

/-- The rotation-block diagonal of a compiled matrix (`elements` 0, 5, 10). -/
def rotationDiagOf (m : Mat4) : ℚ × ℚ × ℚ :=
  (m.getD 0 0, m.getD 5 0, m.getD 10 0)

/-- Claim C1 (counterexample): compiling `"1/2+X,-Y,1/2-Z"` does **not** give
the translation vector `(0.5, 0, -0.5)` stated by the claim: the scan of
`"1/2-Z"` sets the row translation to `1`, divides it by `2`, and the later
`-` only sets the `negate` flag consumed by `Z`, so the stored translation is
`+0.5`. -/
theorem C1_counterexample :
    ¬ translationOf (compileOperator ["1/2+X", "-Y", "1/2-Z"]).1
      = (1/2, 0, -(1/2)) := by
  simp [compileOperator, processComponent, processChar, matrixZero, digitVal, reIntegerTest,
    translationOf, List.enum, List.set, List.getD]
  norm_num

/-- Claim C1 (amended): compiling `"1/2+X,-Y,1/2-Z"` yields translation vector
`(0.5, 0, 0.5)` and rotation-block diagonal `(1, -1, -1)`. -/
theorem C1_compiled_operator :
    translationOf (compileOperator ["1/2+X", "-Y", "1/2-Z"]).1 = (1/2, 0, 1/2) ∧
    rotationDiagOf (compileOperator ["1/2+X", "-Y", "1/2-Z"]).1 = (1, -1, -1) := by
  constructor <;>
    simp [compileOperator, processComponent, processChar, matrixZero, digitVal, reIntegerTest,
      translationOf, rotationDiagOf, List.enum, List.set, List.getD]

/-! ## Claim C2: signed-permutation rotation blocks -/

/-- A sign character of an operator component. -/
def isSignB (c : Char) : Bool := c = '+' ∨ c = '-'

/-- An axis character of an operator component. -/
def isAxisB (c : Char) : Bool := c = 'X' ∨ c = 'Y' ∨ c = 'Z'

/-- The rotation column an axis letter writes to (X ↦ 0, Y ↦ 1, Z ↦ 2). -/
def axisCol (c : Char) : ℕ := if c = 'X' then 0 else if c = 'Y' then 1 else 2

/-- Row `r` of the rotation block of `m` has exactly one nonzero entry, and
that entry is `1` or `-1` (column `j` of row `r` lives at element
`4 * j + r`). -/
def signedPermRow (m : Mat4) (r : ℕ) : Prop :=
  ∃ j : Fin 3, (m.getD (4 * (j : ℕ) + r) 0 = 1 ∨ m.getD (4 * (j : ℕ) + r) 0 = -1) ∧
    ∀ j2 : Fin 3, j2 ≠ j → m.getD (4 * (j2 : ℕ) + r) 0 = 0

lemma getD_set_ne (l : List ℚ) (i j : ℕ) (v : ℚ) (h : i ≠ j) :
    (l.set i v).getD j 0 = l.getD j 0 := by
  simp [List.getD_eq_getElem?_getD, List.getElem?_set_ne h]

lemma getD_set_self (l : List ℚ) (i : ℕ) (v : ℚ) (h : i < l.length) :
    (l.set i v).getD i 0 = v := by
  simp [List.getD_eq_getElem?_getD, List.getElem?_set_eq_of_lt v h]

/-- A sign character only toggles the `negate` flag. -/
lemma processChar_sign (r : ℕ) (st : SymScan) (c : Char) (h : isSignB c = true) :
    ∃ b, processChar r st c = { st with negate := b } := by
  simp only [isSignB, decide_eq_true_eq, Bool.or_eq_true] at h
  rcases h with h | h <;> subst h
  · exact ⟨false, by simp [processChar]⟩
  · exact ⟨true, by simp [processChar]⟩

/-- Scanning sign characters only leaves the matrix, the flags other than
`negate`, and the warnings untouched. -/
lemma foldl_signs (r : ℕ) (l : List Char) (st : SymScan)
    (h : ∀ c ∈ l, isSignB c = true) :
    ∃ b, l.foldl (processChar r) st = { st with negate := b } := by
  induction l generalizing st with
  | nil => exact ⟨st.negate, rfl⟩
  | cons c t ih =>
    obtain ⟨b, hb⟩ := processChar_sign r st c (h c (by simp))
    obtain ⟨b2, hb2⟩ := ih { st with negate := b } (fun x hx => h x (by simp [hx]))
    exact ⟨b2, by simp [List.foldl_cons, hb, hb2]⟩

/-- An axis character writes `±1` into its rotation cell of the current row. -/
lemma processChar_axis (r : ℕ) (st : SymScan) (c : Char) (h : isAxisB c = true) :
    processChar r st c =
      { st with me := st.me.set (4 * axisCol c + r) (if st.negate then -1 else 1) } := by
  simp only [isAxisB, decide_eq_true_eq, Bool.or_eq_true] at h
  rcases h with h | h | h <;> subst h <;> simp [processChar, axisCol]

/-- A component whose characters are all in `{X, Y, Z, +, -}` with exactly one
axis letter writes a single `±1` into row `r` and touches nothing else. -/
lemma processComponent_good (r : ℕ) (me : Mat4) (w : List String)
    (l1 l2 : List Char) (a : Char)
    (ha : isAxisB a = true) (h1 : ∀ c ∈ l1, isSignB c = true)
    (h2 : ∀ c ∈ l2, isSignB c = true) :
    ∃ sg : ℚ, (sg = 1 ∨ sg = -1) ∧
      processComponent r (me, w) ⟨l1 ++ a :: l2⟩ =
        (me.set (4 * axisCol a + r) sg, w) := by
  obtain ⟨b, hb⟩ := foldl_signs r l1
    { negate := false, denominator := false, me := me, warnings := w } h1
  obtain ⟨b2, hb2⟩ := foldl_signs r l2
    ({ negate := b, denominator := false, me := me.set (4 * axisCol a + r)
        (if b then -1 else 1), warnings := w }) h2
  refine ⟨if b then -1 else 1, by by_cases hb3 : b <;> simp [hb3], ?_⟩
  simp only [processComponent, String.data, List.foldl_append, List.foldl_cons, hb]
  rw [processChar_axis r _ a ha]
  simp only [hb2]

/-- A list with exactly one occurrence of `p` splits around that occurrence. -/
lemma countP_one_split (p : Char → Bool) :
    ∀ l : List Char, l.countP p = 1 →
      ∃ l1 a l2, l = l1 ++ a :: l2 ∧ p a = true ∧
        (∀ c ∈ l1, p c = false) ∧ (∀ c ∈ l2, p c = false) := by
  intro l
  induction l with
  | nil => intro h; simp [List.countP_nil] at h
  | cons c t ih =>
    intro h
    by_cases hc : p c
    · rw [List.countP_cons_of_pos p t hc] at h
      have ht : t.countP p = 0 := by omega
      refine ⟨[], c, t, by simp, hc, by simp, ?_⟩
      intro x hx
      exact Bool.eq_false_iff.mpr (List.countP_eq_zero.mp ht x hx)
    · rw [List.countP_cons_of_neg p t (by simpa using hc)] at h
      obtain ⟨l1, a, l2, he, hpa, hl1, hl2⟩ := ih h
      exact ⟨c :: l1, a, l2, by simp [he], hpa,
        by intro x hx; rcases List.mem_cons.mp hx with h | h
           · subst h; exact Bool.eq_false_iff.mpr hc
           · exact hl1 x h,
        hl2⟩

/-- The hypothesis the amendment of claim C2 puts on each operator component:
all characters drawn from `{X, Y, Z, +, -}`, with exactly one axis letter. -/
def goodComponent (s : String) : Prop :=
  (∀ c ∈ s.data, isAxisB c = true ∨ isSignB c = true) ∧ s.data.countP isAxisB = 1

lemma axisCol_lt (c : Char) : axisCol c < 3 := by
  unfold axisCol; split
  · omega
  · split <;> omega

lemma getD_triple_ne (Z : List ℚ) (i0 i1 i2 k : ℕ) (s0 s1 s2 : ℚ)
    (h2 : i2 ≠ k) (h1 : i1 ≠ k) (h0 : i0 ≠ k) :
    (((Z.set i0 s0).set i1 s1).set i2 s2).getD k 0 = Z.getD k 0 := by
  rw [getD_set_ne _ _ _ _ h2, getD_set_ne _ _ _ _ h1, getD_set_ne _ _ _ _ h0]

lemma getD_triple_self0 (Z : List ℚ) (i0 i1 i2 : ℕ) (s0 s1 s2 : ℚ)
    (h2 : i2 ≠ i0) (h1 : i1 ≠ i0) (hlen : i0 < Z.length) :
    (((Z.set i0 s0).set i1 s1).set i2 s2).getD i0 0 = s0 := by
  rw [getD_set_ne _ _ _ _ h2, getD_set_ne _ _ _ _ h1, getD_set_self _ _ _ hlen]

lemma getD_triple_self1 (Z : List ℚ) (i0 i1 i2 : ℕ) (s0 s1 s2 : ℚ)
    (h2 : i2 ≠ i1) (hlen : i1 < Z.length) :
    (((Z.set i0 s0).set i1 s1).set i2 s2).getD i1 0 = s1 := by
  rw [getD_set_ne _ _ _ _ h2, getD_set_self _ _ _ (by simpa using hlen)]

lemma getD_triple_self2 (Z : List ℚ) (i0 i1 i2 : ℕ) (s0 s1 s2 : ℚ)
    (hlen : i2 < Z.length) :
    (((Z.set i0 s0).set i1 s1).set i2 s2).getD i2 0 = s2 := by
  rw [getD_set_self _ _ _ (by simpa using hlen)]

lemma matrixZero_getD_eq_zero (n : ℕ) (h1 : n < 15) : matrixZero.getD n 0 = 0 := by
  interval_cases n <;> rfl

/-- The compiled matrix of a triplet of good components is the zero template
with one `±1` written per row. -/
lemma compileOperator_good (c0 c1 c2 : String)
    (h0 : goodComponent c0) (h1 : goodComponent c1) (h2 : goodComponent c2) :
    ∃ (A0 A1 A2 : ℕ) (s0 s1 s2 : ℚ),
      A0 < 3 ∧ A1 < 3 ∧ A2 < 3 ∧
      (s0 = 1 ∨ s0 = -1) ∧ (s1 = 1 ∨ s1 = -1) ∧ (s2 = 1 ∨ s2 = -1) ∧
      (compileOperator [c0, c1, c2]).1 =
        ((matrixZero.set (4 * A0 + 0) s0).set (4 * A1 + 1) s1).set (4 * A2 + 2) s2 := by
  have split0 := countP_one_split isAxisB c0.data h0.2
  have split1 := countP_one_split isAxisB c1.data h1.2
  have split2 := countP_one_split isAxisB c2.data h2.2
  obtain ⟨p0, a0, q0, he0, ha0, hp0, hq0⟩ := split0
  obtain ⟨p1, a1, q1, he1, ha1, hp1, hq1⟩ := split1
  obtain ⟨p2, a2, q2, he2, ha2, hp2, hq2⟩ := split2
  have sign_of : ∀ (s : String), goodComponent s → ∀ c ∈ s.data,
      isAxisB c = false → isSignB c = true := by
    intro s hs c hc hax
    rcases hs.1 c hc with h | h
    · rw [hax] at h; exact absurd h (by simp)
    · exact h
  have hc0 : c0 = ⟨p0 ++ a0 :: q0⟩ := by cases c0; exact congrArg String.mk (by simpa using he0)
  have hc1 : c1 = ⟨p1 ++ a1 :: q1⟩ := by cases c1; exact congrArg String.mk (by simpa using he1)
  have hc2 : c2 = ⟨p2 ++ a2 :: q2⟩ := by cases c2; exact congrArg String.mk (by simpa using he2)
  have hs0 : ∀ c ∈ p0, isSignB c = true := fun c hc =>
    sign_of c0 h0 c (by rw [hc0]; simp [hc]) (hp0 c hc)
  have ht0 : ∀ c ∈ q0, isSignB c = true := fun c hc =>
    sign_of c0 h0 c (by rw [hc0]; simp [hc]) (hq0 c hc)
  have hs1 : ∀ c ∈ p1, isSignB c = true := fun c hc =>
    sign_of c1 h1 c (by rw [hc1]; simp [hc]) (hp1 c hc)
  have ht1 : ∀ c ∈ q1, isSignB c = true := fun c hc =>
    sign_of c1 h1 c (by rw [hc1]; simp [hc]) (hq1 c hc)
  have hs2 : ∀ c ∈ p2, isSignB c = true := fun c hc =>
    sign_of c2 h2 c (by rw [hc2]; simp [hc]) (hp2 c hc)
  have ht2 : ∀ c ∈ q2, isSignB c = true := fun c hc =>
    sign_of c2 h2 c (by rw [hc2]; simp [hc]) (hq2 c hc)
  obtain ⟨sg0, hsg0, hpc0⟩ := processComponent_good 0 matrixZero [] p0 q0 a0 ha0 hs0 ht0
  rw [hc0, hc1, hc2]
  simp only [compileOperator, List.enum, List.enumFrom, List.foldl_cons, List.foldl_nil]
  rw [hpc0]
  obtain ⟨sg1, hsg1, hpc1⟩ := processComponent_good 1
    (matrixZero.set (4 * axisCol a0 + 0) sg0) [] p1 q1 a1 ha1 hs1 ht1
  rw [hpc1]
  obtain ⟨sg2, hsg2, hpc2⟩ := processComponent_good 2
    ((matrixZero.set (4 * axisCol a0 + 0) sg0).set (4 * axisCol a1 + 1) sg1)
    [] p2 q2 a2 ha2 hs2 ht2
  rw [hpc2]
  exact ⟨axisCol a0, axisCol a1, axisCol a2, sg0, sg1, sg2,
    axisCol_lt a0, axisCol_lt a1, axisCol_lt a2, hsg0, hsg1, hsg2, rfl⟩

/-- Claim C2 (amended): for every operator triplet whose components consist
only of the characters `X`, `Y`, `Z`, `+`, `-` **and contain exactly one axis
letter each**, the compiled transform has a rotation block in which every row
has exactly one nonzero entry, that entry is `+1` or `-1`, and the translation
vector is zero. -/
theorem C2_signed_permutation (c0 c1 c2 : String)
    (h0 : goodComponent c0) (h1 : goodComponent c1) (h2 : goodComponent c2) :
    (signedPermRow (compileOperator [c0, c1, c2]).1 0 ∧
     signedPermRow (compileOperator [c0, c1, c2]).1 1 ∧
     signedPermRow (compileOperator [c0, c1, c2]).1 2) ∧
    translationOf (compileOperator [c0, c1, c2]).1 = (0, 0, 0) := by
  obtain ⟨A0, A1, A2, s0, s1, s2, hA0, hA1, hA2, hs0, hs1, hs2, hM⟩ :=
    compileOperator_good c0 c1 c2 h0 h1 h2
  rw [hM]
  have hlen : matrixZero.length = 16 := by rfl
  refine ⟨⟨⟨⟨A0, hA0⟩, ?_, ?_⟩, ⟨⟨A1, hA1⟩, ?_, ?_⟩, ⟨⟨A2, hA2⟩, ?_, ?_⟩⟩, ?_⟩
  · rw [show 4 * A0 + 0 = 4 * A0 + 0 from rfl,
      getD_triple_self0 _ _ _ _ _ _ _ (by omega) (by omega) (by omega)]
    exact hs0
  · intro j2 hj2
    have hj2v : (j2 : ℕ) ≠ A0 := fun hv => hj2 (Fin.ext hv)
    rw [getD_triple_ne _ _ _ _ _ _ _ _ (by omega) (by omega) (by omega)]
    exact matrixZero_getD_eq_zero _ (by have := j2.isLt; omega)
  · rw [getD_triple_self1 _ _ _ _ _ _ _ (by omega) (by omega)]
    exact hs1
  · intro j2 hj2
    have hj2v : (j2 : ℕ) ≠ A1 := fun hv => hj2 (Fin.ext hv)
    rw [getD_triple_ne _ _ _ _ _ _ _ _ (by omega) (by omega) (by omega)]
    exact matrixZero_getD_eq_zero _ (by have := j2.isLt; omega)
  · rw [getD_triple_self2 _ _ _ _ _ _ _ (by omega)]
    exact hs2
  · intro j2 hj2
    have hj2v : (j2 : ℕ) ≠ A2 := fun hv => hj2 (Fin.ext hv)
    rw [getD_triple_ne _ _ _ _ _ _ _ _ (by omega) (by omega) (by omega)]
    exact matrixZero_getD_eq_zero _ (by have := j2.isLt; omega)
  · unfold translationOf
    rw [getD_triple_ne _ _ _ _ _ _ _ _ (by omega) (by omega) (by omega),
      getD_triple_ne _ _ _ _ _ _ _ _ (by omega) (by omega) (by omega),
      getD_triple_ne _ _ _ _ _ _ _ _ (by omega) (by omega) (by omega),
      matrixZero_getD_eq_zero 12 (by omega), matrixZero_getD_eq_zero 13 (by omega),
      matrixZero_getD_eq_zero 14 (by omega)]

/-- Claim C2 (witness): the amended theorem applied to `"X,-Y,+Z"`. -/
theorem C2_signed_permutation_witness :
    (signedPermRow (compileOperator ["X", "-Y", "+Z"]).1 0 ∧
     signedPermRow (compileOperator ["X", "-Y", "+Z"]).1 1 ∧
     signedPermRow (compileOperator ["X", "-Y", "+Z"]).1 2) ∧
    translationOf (compileOperator ["X", "-Y", "+Z"]).1 = (0, 0, 0) :=
  C2_signed_permutation "X" "-Y" "+Z"
    ⟨by decide, by decide⟩ ⟨by decide, by decide⟩ ⟨by decide, by decide⟩

/-- Claim C2 (counterexample): the triplet `["XY", "Y", "Z"]` contains only
the characters `X`, `Y`, `Z`, `+`, `-`, yet its compiled rotation block has
**two** nonzero entries in row 0 (both the X- and the Y-cell hold `1`), so the
claim as stated — every such triplet compiles to a rotation block whose rows
have exactly one nonzero entry — is false. -/
theorem C2_counterexample :
    (∀ s ∈ (["XY", "Y", "Z"] : List String), ∀ c ∈ s.data,
      isAxisB c = true ∨ isSignB c = true) ∧
    (compileOperator ["XY", "Y", "Z"]).1.getD 0 0 = 1 ∧
    (compileOperator ["XY", "Y", "Z"]).1.getD 4 0 = 1 := by
  refine ⟨by decide, ?_, ?_⟩ <;>
    simp [compileOperator, processComponent, processChar, matrixZero, digitVal, reIntegerTest,
      List.enum, List.set, List.getD]

/-! ## Claim C3: digit handling in the translation scan -/

/-- A character matching `reInteger` is none of the specially handled
characters, so the digit branch of `processChar` is reached. -/
lemma reInteger_ne (c : Char) (hc : reIntegerTest c = true) :
    c ≠ '-' ∧ c ≠ '+' ∧ c ≠ '/' ∧ c ≠ 'X' ∧ c ≠ 'Y' ∧ c ≠ 'Z' := by
  refine ⟨?_, ?_, ?_, ?_, ?_, ?_⟩ <;> (rintro rfl; revert hc; decide)

/-- Claim C3 (amended): for every character matching `reInteger = /^[1-9]$/`
scanned in an operator component, when the `denominator` flag is not set the
digit **overwrites** that row's translation element with its integer value,
and when the flag is set it **divides** the current translation value; the
character `'0'` does not match `reInteger` and is handled as an unknown token
(warning logged, matrix untouched); a component containing no `reInteger`
digit leaves its row's translation element unchanged (hence at its initial
`0`), and `"1/2"` produces translation `0.5` for its row. -/
theorem C3_digit_handling :
    (∀ (row : ℕ) (st : SymScan) (c : Char), reIntegerTest c = true →
      st.denominator = false →
      processChar row st c = { st with me := st.me.set (12 + row) (digitVal c) }) ∧
    (∀ (row : ℕ) (st : SymScan) (c : Char), reIntegerTest c = true →
      st.denominator = true →
      processChar row st c =
        { st with me := st.me.set (12 + row) (st.me.getD (12 + row) 0 / digitVal c) }) ∧
    (∀ (row : ℕ) (st : SymScan),
      processChar row st '0' =
        { st with warnings :=
            st.warnings ++ ["getSymmetryOperations: unknown token " ++ '0'.toString] }) ∧
    (∀ (row : ℕ) (st : SymScan) (l : List Char),
      (∀ c ∈ l, reIntegerTest c = false) →
      (l.foldl (processChar row) st).me.getD (12 + row) 0 = st.me.getD (12 + row) 0) ∧
    (∀ row : ℕ, row < 4 →
      (processComponent row (matrixZero, []) "1/2").1.getD (12 + row) 0 = 1/2) := by
  refine ⟨?_, ?_, ?_, ?_, ?_⟩
  · intro row st c hc hd
    obtain ⟨h1, h2, h3, h4, h5, h6⟩ := reInteger_ne c hc
    simp [processChar, h1, h2, h3, h4, h5, h6, hc, hd]
  · intro row st c hc hd
    obtain ⟨h1, h2, h3, h4, h5, h6⟩ := reInteger_ne c hc
    simp [processChar, h1, h2, h3, h4, h5, h6, hc, hd]
  · intro row st
    simp [processChar, reIntegerTest]
  · intro row st l hl
    induction l generalizing st with
    | nil => rfl
    | cons c t ih =>
      have hc := hl c (by simp)
      have step : (processChar row st c).me.getD (12 + row) 0 = st.me.getD (12 + row) 0 := by
        unfold processChar
        split
        · rfl
        · split
          · rfl
          · split
            · rfl
            · split
              · exact getD_set_ne _ _ _ _ (by omega)
              · split
                · exact getD_set_ne _ _ _ _ (by omega)
                · split
                  · exact getD_set_ne _ _ _ _ (by omega)
                  · split
                    · rename_i hdig
                      rw [hc] at hdig
                      exact absurd hdig (by simp)
                    · rfl
      rw [List.foldl_cons, ih _ (fun x hx => hl x (by simp [hx])), step]
  · intro row hrow
    interval_cases row <;>
      simp [processComponent, processChar, matrixZero, digitVal, reIntegerTest,
        List.set, List.getD]

/-- Claim C3 (witness): the digit cases of the amended theorem at concrete
inputs. -/
theorem C3_digit_handling_witness :
    processChar 0 ⟨false, false, matrixZero, []⟩ '3' =
      ⟨false, false, matrixZero.set 12 (digitVal '3'), []⟩ ∧
    (processComponent 0 (matrixZero, []) "1/2").1.getD 12 0 = 1/2 :=
  ⟨C3_digit_handling.1 0 _ '3' (by decide) rfl,
   C3_digit_handling.2.2.2.2 0 (by omega)⟩

/-- Claim C3 (counterexample): the claim quantifies over every decimal digit
`0`-`9`, but the code's `reInteger` is `/^[1-9]$/`: scanning the component
`"10+X"` leaves the row translation at `1` — the digit `'0'` does **not**
overwrite it with `0` as the claim would require (it is skipped as an unknown
token). -/
theorem C3_counterexample :
    (compileOperator ["10+X", "Y", "Z"]).1.getD 12 0 = 1 ∧ (1 : ℚ) ≠ 0 := by
  constructor
  · simp [compileOperator, processComponent, processChar, matrixZero, digitVal, reIntegerTest,
      List.enum, List.set, List.getD]
  · norm_num

/-! ## Claim C10: case-insensitivity of envelope operator compilation -/

lemma char_eq_of_toNat_eq (c d : Char) (h : c.toNat = d.toNat) : c = d := by
  apply Char.eq_of_val_eq
  apply UInt32.eq_of_toBitVec_eq
  exact BitVec.eq_of_toNat_eq h

lemma toNat_ofNat_valid (n : ℕ) (h : n.isValidChar) : (Char.ofNat n).toNat = n := by
  simp [Char.ofNat, h, Char.ofNatAux, Char.toNat, UInt32.toNat, BitVec.toNat_ofNat]

/-- `upperChar` neither produces nor consumes a character whose code is below
`'A'`; in particular the separators `;` and `,` are fixed and are never the
image of another character. -/
lemma upperChar_eq_iff (c sep : Char) (h1 : sep.toNat < 65) :
    upperChar c = sep ↔ c = sep := by
  constructor
  · intro h
    unfold upperChar at h
    split at h
    · rename_i hc
      have h97 : 97 ≤ c.toNat := hc.1
      have h122 : c.toNat ≤ 122 := hc.2
      have hv : (c.toNat - 32).isValidChar := Or.inl (by omega)
      have ht := toNat_ofNat_valid (c.toNat - 32) hv
      rw [h] at ht
      omega
    · exact h
  · intro h
    rw [h]
    unfold upperChar
    rw [if_neg]
    intro hc
    have h97 : 97 ≤ sep.toNat := hc.1
    omega

/-- Splitting on a separator below code 65 commutes with uppercasing. -/
lemma splitCharList_map_upper (sep : Char) (h : sep.toNat < 65) (l : List Char) :
    splitCharList sep (l.map upperChar) =
      (splitCharList sep l).map (List.map upperChar) := by
  induction l with
  | nil => rfl
  | cons c t ih =>
    simp only [List.map_cons, splitCharList]
    rw [ih]
    cases hs : splitCharList sep t with
    | nil => simp
    | cons hd tl =>
      simp only [List.map_cons]
      by_cases hc : c = sep
      · rw [if_pos ((upperChar_eq_iff c sep h).mpr hc), if_pos hc]
        simp
      · rw [if_neg (fun hx => hc ((upperChar_eq_iff c sep h).mp hx)), if_neg hc]
        simp

lemma jsSplitChar_upper (sep : Char) (h : sep.toNat < 65) (s : String) :
    jsSplitChar sep (jsToUpperCase s) = (jsSplitChar sep s).map jsToUpperCase := by
  unfold jsSplitChar jsToUpperCase
  simp only [splitCharList_map_upper sep h]
  simp [Function.comp]

lemma upperChar_idem (c : Char) : upperChar (upperChar c) = upperChar c := by
  unfold upperChar
  split
  · rename_i hc
    rw [if_neg]
    intro hx
    have h97 : 97 ≤ c.toNat := hc.1
    have h122 : c.toNat ≤ 122 := hc.2
    have hv : (c.toNat - 32).isValidChar := Or.inl (by omega)
    have ht := toNat_ofNat_valid (c.toNat - 32) hv
    have h2 : 97 ≤ (Char.ofNat (c.toNat - 32)).toNat := hx.1
    omega
  · rfl

lemma jsToUpperCase_idem (s : String) :
    jsToUpperCase (jsToUpperCase s) = jsToUpperCase s := by
  unfold jsToUpperCase
  refine congrArg String.mk ?_
  simp only [List.map_map]
  apply List.map_congr_left
  intro c _
  simp [Function.comp, upperChar_idem]

/-- Claim C10: operator compilation from the envelope is case-insensitive —
every component is uppercased before compilation, so the operator triplets
extracted from a lowercase or mixed-case `spacegroupOperators` string are
identical to those extracted from its uppercase form, and so are the compiled
matrices. -/
theorem C10_case_insensitive (s : String) :
    parseEnvelopeOperators (jsToUpperCase s) = parseEnvelopeOperators s ∧
    setSymmetryOperations (parseEnvelopeOperators (jsToUpperCase s)) =
      setSymmetryOperations (parseEnvelopeOperators s) := by
  have hmain : parseEnvelopeOperators (jsToUpperCase s) = parseEnvelopeOperators s := by
    unfold parseEnvelopeOperators
    rw [jsSplitChar_upper ';' (by decide) s]
    rw [List.map_map]
    apply List.map_congr_left
    intro op _
    simp only [Function.comp]
    rw [jsSplitChar_upper ',' (by decide) op]
    rw [List.map_map]
    apply List.map_congr_left
    intro x _
    simp only [Function.comp]
    exact jsToUpperCase_idem x
  exact ⟨hmain, by rw [hmain]⟩

/-! ## Claim C9: the space-group lookup collaborator (`lookupSpaceGroup`) -/

/-- Models JavaScript array indexing `arr[i]` with a possibly out-of-range or
negative index: `none` is the JavaScript `undefined`. -/
def jsIndex {α : Type} (l : List α) (i : Int) : Option α :=
  if i < 0 then none else l.get? i.toNat

/-- The static space-group name table, indexed by space-group number (row,
1-based) and setting (column, 1-based); empty strings mark absent
combinations.  Transcribed row by row from `spaceGroupLookup`. -/
def spaceGroupLookup : List (List String) := [
  ["P 1", "", "", "", "", ""],
  ["P -1", "", "", "", "", ""],
  ["P 2", "", "P 1 1 2", "", "", ""],
  ["P 21", "", "P 1 1 21", "", "", ""],
  ["C 2", "A 2", "B 1 1 2", "A 1 1 2", "", ""],
  ["P m", "", "P 1 1 m", "", "", ""],
  ["P c", "P a", "P 1 1 b", "P 1 1 a", "", ""],
  ["C m", "A m", "B 1 1 m", "A 1 1 m", "", ""],
  ["C c", "A a", "B 1 1 b", "A 1 1 a", "", ""],
  ["P 2/m", "", "P 1 1 2/m", "", "", ""],
  ["P 21/m", "", "P 1 1 21/m", "", "", ""],
  ["C 2/m", "A 2/m", "B 1 1 2/m", "A 1 1 2/m", "", ""],
  ["P 2/c", "P 2/a", "P 1 1 2/b", "P 1 1 2/a", "", ""],
  ["P 21/c", "P 21/a", "P 1 1 21/b", "P 1 1 21/a", "", ""],
  ["C 2/c", "A 2/a", "B 1 1 2/b", "A 1 1 2/a", "", ""],
  ["P 2 2 2", "", "", "", "", ""],
  ["P 2 2 21", "P 21 2 2", "P 2 21 2", "", "", ""],
  ["P 21 21 2", "P 2 21 21", "P 21 2 21", "", "", ""],
  ["P 21 21 21", "", "", "", "", ""],
  ["C 2 2 21", "A 21 2 2", "B 2 21 2", "", "", ""],
  ["C 2 2 2", "A 2 2 2", "B 2 2 2", "", "", ""],
  ["F 2 2 2", "", "", "", "", ""],
  ["I 2 2 2", "", "", "", "", ""],
  ["I 21 21 21", "", "", "", "", ""],
  ["P m m 2", "P 2 m m", "P m 2 m", "", "", ""],
  ["P m c 21", "P 21 m a", "P b 21 m", "P m 21 b", "P c m 21", "P 21 a m"],
  ["P c c 2", "P 2 a a", "P b 2 b", "", "", ""],
  ["P m a 2", "P 2 m b", "P c 2 m", "P m 2 a", "P b m 2", "P 2 c m"],
  ["P c a 21", "P 21 a b", "P c 21 b", "P b 21 a", "P b c 21", "P 21 c a"],
  ["P n c 2", "P 2 n a", "P b 2 n", "P n 2 b", "P c n 2", "P 2 a n"],
  ["P m n 21", "P 21 m n", "P n 21 m", "P m 21 n", "P n m 21", "P 21 n m"],
  ["P b a 2", "P 2 c b", "P c 2 a", "", "", ""],
  ["P n a 21", "P 21 n b", "P c 21 n", "P n 21 a", "P b n 21", "P 21 c n"],
  ["P n n 2", "P 2 n n", "P n 2 n", "", "", ""],
  ["C m m 2", "A 2 m m", "B m 2 m", "", "", ""],
  ["C m c 21", "A 21 m a", "B b 21 m", "B m 21 b", "C c m 21", "A 21 a m"],
  ["C c c 2", "A 2 a a", "B b 2 b", "", "", ""],
  ["A m m 2", "B 2 m m", "C m 2 m", "A m 2 m", "B m m 2", "C 2 m m"],
  ["A b m 2", "B 2 c m", "C m 2 a", "A c 2 m", "B m a 2", "C 2 m b"],
  ["A m a 2", "B 2 m b", "C c 2 m", "A m 2 a", "B b m 2", "C 2 c m"],
  ["A b a 2", "B 2 c b", "C c 2 a", "A c 2 a", "B b a 2", "C 2 c b"],
  ["F m m 2", "F 2 m m", "F m 2 m", "", "", ""],
  ["F d d 2", "F 2 d d", "F d 2 d", "", "", ""],
  ["I m m 2", "I 2 m m", "I m 2 m", "", "", ""],
  ["I b a 2", "I 2 c b", "I c 2 a", "", "", ""],
  ["I m a 2", "I 2 m b", "I c 2 m", "I m 2 a", "I b m 2", "I 2 c m"],
  ["P m m m", "", "", "", "", ""],
  ["P n n n", "", "", "", "", ""],
  ["P c c m", "P m a a", "P b m b", "", "", ""],
  ["P b a n", "P n c b", "P c n a", "", "", ""],
  ["P m m a", "P b m m", "P m c m", "P m a m", "P m m b", "P c m m"],
  ["P n n a", "P b n n", "P n c n", "P n a n", "P n n b", "P c n n"],
  ["P m n a", "P b m n", "P n c m", "P m a n", "P n m b", "P c n m"],
  ["P c c a", "P b a a", "P b c b", "P b a b", "P c c b", "P c a a"],
  ["P b a m", "P m c b", "P c m a", "", "", ""],
  ["P c c n", "P n a a", "P b n b", "", "", ""],
  ["P b c m", "P m c a", "P b m a", "P c m b", "P c a m", "P m a b"],
  ["P n n m", "P m n n", "P n m n", "", "", ""],
  ["P m m n", "P n m m", "P m n m", "", "", ""],
  ["P b c n", "P n c a", "P b n a", "P c n b", "P c a n", "P n a b"],
  ["P b c a", "", "P c a b", "", "", ""],
  ["P n m a", "P b n m", "P m c n", "P n a m", "P m n b", "P c m n"],
  ["C m c m", "A m m a", "B b m m", "B m m b", "C c m m", "A m a m"],
  ["C m c a", "A b m a", "B b c m", "B m a b", "C c m b", "A c a m"],
  ["C m m m", "A m m m", "B m m m", "", "", ""],
  ["C c c m", "A m a a", "B b m b", "", "", ""],
  ["C m m a", "A b m m", "B m c m", "B m a m", "C m m b", "A c m m"],
  ["C c c a", "A b a a", "B b c b", "B b a b", "C c c b", "A c a a"],
  ["F m m m", "", "", "", "", ""],
  ["F d d d", "", "", "", "", ""],
  ["I m m m", "", "", "", "", ""],
  ["I b a m", "I m c b", "I c m a", "", "", ""],
  ["I b c a", "", "I c a b", "", "", ""],
  ["I m m a", "I b m m", "I m c m", "I m a m", "I m m b", "I c m m"],
  ["P 4", "C 4", "", "", "", ""],
  ["P 41", "C 41", "", "", "", ""],
  ["P 42", "C 42", "", "", "", ""],
  ["P 43", "C 43", "", "", "", ""],
  ["I 4", "F 4", "", "", "", ""],
  ["I 41", "F 41", "", "", "", ""],
  ["P -4", "C -4", "", "", "", ""],
  ["I -4", "F -4", "", "", "", ""],
  ["P 4/m", "C 4/m", "", "", "", ""],
  ["P 42/m", "C 42/m", "", "", "", ""],
  ["P 4/n", "C 4/a", "", "", "", ""],
  ["P 42/n", "C 42/a", "", "", "", ""],
  ["I 4/m", "F 4/m", "", "", "", ""],
  ["I 41/a", "F 41/d", "", "", "", ""],
  ["P 4 2 2", "C 4 2 2", "", "", "", ""],
  ["P 4 21 2", "C 4 2 21", "", "", "", ""],
  ["P 41 2 2", "C 41 2 2", "", "", "", ""],
  ["P 41 21 2", "C 41 2 21", "", "", "", ""],
  ["P 42 2 2", "C 42 2 2", "", "", "", ""],
  ["P 42 21 2", "C 42 2 21", "", "", "", ""],
  ["P 43 2 2", "C 43 2 2", "", "", "", ""],
  ["P 43 21 2", "C 43 2 21", "", "", "", ""],
  ["I 4 2 2", "F 4 2 2", "", "", "", ""],
  ["I 41 2 2", "F 41 2 2", "", "", "", ""],
  ["P 4 m m", "C 4 m m", "", "", "", ""],
  ["P 4 b m", "C 4 m b", "", "", "", ""],
  ["P 42 c m", "C 42 m c", "", "", "", ""],
  ["P 42 n m", "C 42 m n", "", "", "", ""],
  ["P 4 c c", "C 4 c c", "", "", "", ""],
  ["P 4 n c", "C 4 c n", "", "", "", ""],
  ["P 42 m c", "C 42 c m", "", "", "", ""],
  ["P 42 b c", "C 42 c b", "", "", "", ""],
  ["I 4 m m", "F 4 m m", "", "", "", ""],
  ["I 4 c m", "F 4 m c", "", "", "", ""],
  ["I 41 m d", "F 41 d m", "", "", "", ""],
  ["I 41 c d", "F 41 d c", "", "", "", ""],
  ["P -4 2 m", "C -4 m 2", "", "", "", ""],
  ["P -4 2 c", "C -4 c 2", "", "", "", ""],
  ["P -4 21 m", "C -4 m 21", "", "", "", ""],
  ["P -4 21 c", "C -4 c 21", "", "", "", ""],
  ["P -4 m 2", "C -4 2 m", "", "", "", ""],
  ["P -4 c 2", "C -4 2 c", "", "", "", ""],
  ["P -4 b 2", "C -4 2 b", "", "", "", ""],
  ["P -4 n 2", "C -4 2 n", "", "", "", ""],
  ["I -4 m 2", "F -4 2 m", "", "", "", ""],
  ["I -4 c 2", "F -4 2 c", "", "", "", ""],
  ["I -4 2 m", "F -4 m 2", "", "", "", ""],
  ["I -4 2 d", "F -4 d 2", "", "", "", ""],
  ["P 4/m m m", "C 4/m m m", "", "", "", ""],
  ["P 4/m c c", "C 4/m c c", "", "", "", ""],
  ["P 4/n b m", "C 4/a m b", "", "", "", ""],
  ["P 4/n n c", "C 4/a c n", "", "", "", ""],
  ["P 4/m b m", "C 4/m m b", "", "", "", ""],
  ["P 4/m n c", "C 4/m c n", "", "", "", ""],
  ["P 4/n m m", "C 4/a m m", "", "", "", ""],
  ["P 4/n c c", "C 4/a c c", "", "", "", ""],
  ["P 42/m m c", "C 42/m c m", "", "", "", ""],
  ["P 42/m c m", "C 42/m m c", "", "", "", ""],
  ["P 42/n b c", "C 42/a c b", "", "", "", ""],
  ["P 42/n n m", "C 42/a m n", "", "", "", ""],
  ["P 42/m b c", "C 42/m c b", "", "", "", ""],
  ["P 42/m n m", "C 42/m m n", "", "", "", ""],
  ["P 42/n m c", "C 42/a c m", "", "", "", ""],
  ["P 42/n c m", "C 42/a m c", "", "", "", ""],
  ["I 4/m m m", "F 4/m m m", "", "", "", ""],
  ["I 4/m c m", "F 4/m m c", "", "", "", ""],
  ["I 41/a m d", "F 41/d d m", "", "", "", ""],
  ["I 41/a c d", "F 41/d d c", "", "", "", ""],
  ["P 3", "", "", "", "", ""],
  ["P 31", "", "", "", "", ""],
  ["P 32", "", "", "", "", ""],
  ["R 3", "", "", "", "", ""],
  ["P -3", "", "", "", "", ""],
  ["R -3", "", "", "", "", ""],
  ["P 3 1 2", "", "", "", "", ""],
  ["P 3 2 1", "", "", "", "", ""],
  ["P 31 1 2", "", "", "", "", ""],
  ["P 31 2 1", "", "", "", "", ""],
  ["P 32 1 2", "", "", "", "", ""],
  ["P 32 2 1", "", "", "", "", ""],
  ["R 3 2", "", "", "", "", ""],
  ["P 3 m 1", "", "", "", "", ""],
  ["P 3 1 m", "", "", "", "", ""],
  ["P 3 c 1", "", "", "", "", ""],
  ["P 3 1 c", "", "", "", "", ""],
  ["R 3 m", "", "", "", "", ""],
  ["R 3 c", "", "", "", "", ""],
  ["P -3 1 m", "", "", "", "", ""],
  ["P -3 1 c", "", "", "", "", ""],
  ["P -3 m 1", "", "", "", "", ""],
  ["P -3 c 1", "", "", "", "", ""],
  ["R -3 m", "", "", "", "", ""],
  ["R -3 c", "", "", "", "", ""],
  ["P 6", "", "", "", "", ""],
  ["P 61", "", "", "", "", ""],
  ["P 65", "", "", "", "", ""],
  ["P 62", "", "", "", "", ""],
  ["P 64", "", "", "", "", ""],
  ["P 63", "", "", "", "", ""],
  ["P -6", "", "", "", "", ""],
  ["P 6/m", "", "", "", "", ""],
  ["P 63/m", "", "", "", "", ""],
  ["P 6 2 2", "", "", "", "", ""],
  ["P 61 2 2", "", "", "", "", ""],
  ["P 65 2 2", "", "", "", "", ""],
  ["P 62 2 2", "", "", "", "", ""],
  ["P 64 2 2", "", "", "", "", ""],
  ["P 63 2 2", "", "", "", "", ""],
  ["P 6 m m", "", "", "", "", ""],
  ["P 6 c c", "", "", "", "", ""],
  ["P 63 c m", "", "", "", "", ""],
  ["P 63 m c", "", "", "", "", ""],
  ["P -6 m 2", "", "", "", "", ""],
  ["P -6 c 2", "", "", "", "", ""],
  ["P -6 2 m", "", "", "", "", ""],
  ["P -6 2 c", "", "", "", "", ""],
  ["P 6/m m m", "", "", "", "", ""],
  ["P 6/m c c", "", "", "", "", ""],
  ["P 63/m c m", "", "", "", "", ""],
  ["P 63/m m c", "", "", "", "", ""],
  ["P 2 3", "", "", "", "", ""],
  ["F 2 3", "", "", "", "", ""],
  ["I 2 3", "", "", "", "", ""],
  ["P 21 3", "", "", "", "", ""],
  ["I 21 3", "", "", "", "", ""],
  ["P m -3", "", "", "", "", ""],
  ["P n -3", "", "", "", "", ""],
  ["F m -3", "", "", "", "", ""],
  ["F d -3", "", "", "", "", ""],
  ["I m -3", "", "", "", "", ""],
  ["P a -3", "", "", "", "", ""],
  ["I a -3", "", "", "", "", ""],
  ["P 4 3 2", "", "", "", "", ""],
  ["P 42 3 2", "", "", "", "", ""],
  ["F 4 3 2", "", "", "", "", ""],
  ["F 41 3 2", "", "", "", "", ""],
  ["I 4 3 2", "", "", "", "", ""],
  ["P 43 3 2", "", "", "", "", ""],
  ["P 41 3 2", "", "", "", "", ""],
  ["I 41 3 2", "", "", "", "", ""],
  ["P -4 3 m", "", "", "", "", ""],
  ["F -4 3 m", "", "", "", "", ""],
  ["I -4 3 m", "", "", "", "", ""],
  ["P -4 3 n", "", "", "", "", ""],
  ["F -4 3 c", "", "", "", "", ""],
  ["I -4 3 d", "", "", "", "", ""],
  ["P m -3 m", "", "", "", "", ""],
  ["P n -3 n", "", "", "", "", ""],
  ["P m -3 n", "", "", "", "", ""],
  ["P n -3 m", "", "", "", "", ""],
  ["F m -3 m", "", "", "", "", ""],
  ["F m -3 c", "", "", "", "", ""],
  ["F d -3 m", "", "", "", "", ""],
  ["F d -3 c", "", "", "", "", ""],
  ["I m -3 m", "", "", "", "", ""],
  ["I a -3 d", "", "", "", "", ""]]

/-- Models `lookupSpaceGroup(spaceGroup, setting)`: the alias remap for
numbers above 230 with setting 1, then the double JavaScript index into the
table.  `Except.error ()` models the `TypeError` thrown when the row index is
out of range (indexing into `undefined`); `Except.ok none` models a returned
`undefined`; `Except.ok (some s)` a returned string. -/
def lookupSpaceGroup (spaceGroup : Int) (setting : Int) : Except Unit (Option String) :=
  let p : Int × Int :=
    if spaceGroup > 230 ∧ setting = 1 then
      if spaceGroup = 231 then (14, 2)
      else if spaceGroup = 232 then (146, setting)
      else if spaceGroup = 233 then (148, setting)
      else if spaceGroup = 234 then (155, setting)
      else if spaceGroup = 235 then (160, setting)
      else if spaceGroup = 236 then (161, setting)
      else if spaceGroup = 237 then (166, setting)
      else if spaceGroup = 238 then (167, setting)
      else (spaceGroup, setting)
    else (spaceGroup, setting)
  match jsIndex spaceGroupLookup (p.1 - 1) with
  | none => Except.error ()
  | some row => Except.ok (jsIndex row (p.2 - 1))


/-- Claim C9 (amended): for every space-group number in `1..230` the lookup
indexes the static table directly (any setting; settings outside `1..6` yield
the JavaScript `undefined`), and each of the eight alias numbers `231..238`
with setting 1 is first remapped (`231→(14,2), 232→146, 233→148, 234→155,
235→160, 236→161, 237→166, 238→167`) and then looked up; numbers outside the
table (above 238, or above 230 with a setting other than 1, or below 1) make
the lookup throw instead of returning a value. -/
theorem C9_spacegroup_lookup :
    (∀ sg st : Int, 1 ≤ sg → sg ≤ 230 →
      ∃ row, spaceGroupLookup.get? (sg - 1).toNat = some row ∧
        lookupSpaceGroup sg st = Except.ok (jsIndex row (st - 1))) ∧
    lookupSpaceGroup 231 1 = lookupSpaceGroup 14 2 ∧
    lookupSpaceGroup 232 1 = lookupSpaceGroup 146 1 ∧
    lookupSpaceGroup 233 1 = lookupSpaceGroup 148 1 ∧
    lookupSpaceGroup 234 1 = lookupSpaceGroup 155 1 ∧
    lookupSpaceGroup 235 1 = lookupSpaceGroup 160 1 ∧
    lookupSpaceGroup 236 1 = lookupSpaceGroup 161 1 ∧
    lookupSpaceGroup 237 1 = lookupSpaceGroup 166 1 ∧
    lookupSpaceGroup 238 1 = lookupSpaceGroup 167 1 := by
  refine ⟨?_, rfl, rfl, rfl, rfl, rfl, rfl, rfl, rfl⟩
  intro sg st h1 h2
  have hg : ¬(sg > 230 ∧ st = 1) := by rintro ⟨h, _⟩; omega
  have hlen : spaceGroupLookup.length = 230 := by rfl
  have hidx : (sg - 1).toNat < spaceGroupLookup.length := by rw [hlen]; omega
  obtain ⟨row, hrow⟩ : ∃ row, spaceGroupLookup.get? (sg - 1).toNat = some row :=
    ⟨_, List.get?_eq_get hidx⟩
  refine ⟨row, hrow, ?_⟩
  have hji : jsIndex spaceGroupLookup (sg - 1) = some row := by
    unfold jsIndex
    rw [if_neg (show ¬(sg - 1 < 0) by omega)]
    exact hrow
  unfold lookupSpaceGroup
  rw [if_neg hg]
  show (match jsIndex spaceGroupLookup (sg - 1) with
      | none => Except.error ()
      | some r => Except.ok (jsIndex r (st - 1))) = Except.ok (jsIndex row (st - 1))
  rw [hji]

/-- Claim C9 (witness): the general lookup statement applied at space group
14, setting 2. -/
theorem C9_spacegroup_lookup_witness :
    ∃ row, spaceGroupLookup.get? ((14 : Int) - 1).toNat = some row ∧
      lookupSpaceGroup 14 2 = Except.ok (jsIndex row (2 - 1)) :=
  C9_spacegroup_lookup.1 14 2 (by decide) (by decide)

/-- Claim C9 (counterexample): the claim states that **every** space-group
number above 230 with setting 1 is remapped through the eight-entry alias
table and then looked up, returning a name or `undefined`; but for 240 (not in
the alias table) the lookup indexes a missing row and throws a `TypeError`
instead of returning anything. -/
theorem C9_counterexample : lookupSpaceGroup 240 1 = Except.error () := by rfl

/-! ## The unit-cell assembly builder (`_buildUnitcellAssembly`)

The three.js vector/matrix operations the builder uses are modelled on
`Mat4` (column-major element list) and a rational 3-vector.  The `Unitcell`
collaborator (external to the parser source) enters only through its two
derived transforms `fracToCart` and `cartToFrac`, which the builder reads and
which are therefore parameters of the embedding. -/

/-- A three.js `Vector3` with exact rational components. -/
structure Vec3 where
  x : ℚ
  y : ℚ
  z : ℚ
  deriving DecidableEq

/-- `new Matrix4()`: the identity matrix. -/
def matIdentity : Mat4 :=
  [1, 0, 0, 0, 0, 1, 0, 0, 0, 0, 1, 0, 0, 0, 0, 1]

/-- Element read of a matrix. -/
def mget (m : Mat4) (i : ℕ) : ℚ := m.getD i 0

/-- `Matrix4.multiplyMatrices(a, b)` (column-major storage). -/
def matMul (a b : Mat4) : Mat4 :=
  (List.range 16).map (fun i =>
    let r := i % 4
    let c := i / 4
    mget a (r + 0) * mget b (4 * c + 0) + mget a (r + 4) * mget b (4 * c + 1) +
    mget a (r + 8) * mget b (4 * c + 2) + mget a (r + 12) * mget b (4 * c + 3))

/-- `Vector3.applyMatrix4`, including the perspective divide three.js
performs.  (`w⁻¹` is `0` at `w = 0` in ℚ where JavaScript produces
`Infinity`; the matrices built here are affine, so `w = 1`.) -/
def applyMatrix4 (v : Vec3) (m : Mat4) : Vec3 :=
  let w := mget m 3 * v.x + mget m 7 * v.y + mget m 11 * v.z + mget m 15
  let wi := w⁻¹
  ⟨(mget m 0 * v.x + mget m 4 * v.y + mget m 8 * v.z + mget m 12) * wi,
   (mget m 1 * v.x + mget m 5 * v.y + mget m 9 * v.z + mget m 13) * wi,
   (mget m 2 * v.x + mget m 6 * v.y + mget m 10 * v.z + mget m 14) * wi⟩

/-- `Vector3.floor` (componentwise `Math.floor`). -/
def vecFloor (v : Vec3) : Vec3 :=
  ⟨(⌊v.x⌋ : ℤ), (⌊v.y⌋ : ℤ), (⌊v.z⌋ : ℤ)⟩

/-- `Vector3.sub`. -/
def vecSub (a b : Vec3) : Vec3 := ⟨a.x - b.x, a.y - b.y, a.z - b.z⟩

/-- `Vector3.add`. -/
def vecAdd (a b : Vec3) : Vec3 := ⟨a.x + b.x, a.y + b.y, a.z + b.z⟩

/-- `Vector3.setFromMatrixPosition`. -/
def matPosition (m : Mat4) : Vec3 := ⟨mget m 12, mget m 13, mget m 14⟩

/-- `Matrix4.setPosition`. -/
def setPosition (m : Mat4) (v : Vec3) : Mat4 :=
  ((m.set 12 v.x).set 13 v.y).set 14 v.z

/-- The two derived transforms of the external `Unitcell` collaborator that
the builder reads. -/
structure UCMats where
  fracToCart : Mat4
  cartToFrac : Mat4
  deriving DecidableEq

/-- The inner `getMatrixList` closure of `_buildUnitcellAssembly`: one
re-centered, cartesian-composed matrix per symmetry-dictionary entry
(`Object.keys` iterates in insertion order, i.e. list order). -/
def getMatrixList (uc : UCMats) (structureCenterFrac centerFrac : Vec3)
    (symopDict : List (String × Mat4)) (shift : Option Vec3) : List Mat4 :=
  symopDict.map (fun kv =>
    let m := kv.2
    let centerFracSymop := vecFloor (applyMatrix4 structureCenterFrac m)
    let positionFracSymop := vecAdd (vecSub (matPosition m) centerFracSymop) centerFrac
    let shifted := match shift with
      | some sh => vecAdd positionFracSymop sh
      | none => positionFracSymop
    matMul (matMul uc.fracToCart (setPosition m shifted)) uc.cartToFrac)

/-- The 27 shift vectors of the supercell, in source order (`none` is the call
without a shift argument). -/
def supercellShifts : List (Option Vec3) := [
  some ⟨1, 0, 0⟩, some ⟨0, 1, 0⟩, some ⟨0, 0, 1⟩,
  some ⟨-1, 0, 0⟩, some ⟨0, -1, 0⟩, some ⟨0, 0, -1⟩,
  some ⟨1, 1, 0⟩, some ⟨1, 0, 1⟩, some ⟨0, 1, 1⟩,
  some ⟨-1, -1, 0⟩, some ⟨-1, 0, -1⟩, some ⟨0, -1, -1⟩,
  some ⟨1, -1, -1⟩, some ⟨1, 1, -1⟩, some ⟨1, -1, 1⟩,
  some ⟨-1, 1, 1⟩, some ⟨-1, -1, 1⟩, some ⟨-1, 1, -1⟩,
  some ⟨0, 1, -1⟩, some ⟨0, -1, 1⟩, some ⟨1, 0, -1⟩,
  some ⟨-1, 0, 1⟩, some ⟨1, -1, 0⟩, some ⟨-1, 1, 0⟩,
  none, some ⟨1, 1, 1⟩, some ⟨-1, -1, -1⟩]

/-- `_buildUnitcellAssembly`, returning the matrix lists of the `UNITCELL`
and `SUPERCELL` assemblies (`none` when the structure has no unit cell and
the builder returns early without attaching assemblies). -/
def buildUnitcellAssembly (unitcell : Option UCMats) (center : Vec3)
    (ncs : Option (List Mat4)) (operators : List (List String)) :
    Option (List Mat4) × Option (List Mat4) :=
  match unitcell with
  | none => (none, none)
  | some uc =>
    let structureCenterFrac := applyMatrix4 center uc.cartToFrac
    let centerFrac := vecFloor structureCenterFrac
    let symopDict := setSymmetryOperations operators
    let unitcellMatrixList := getMatrixList uc structureCenterFrac centerFrac symopDict none
    let ncsMatrixList : List Mat4 := match ncs with
      | some l => matIdentity :: l
      | none => []
    let unitcellPart := match ncs with
      | some _ => unitcellMatrixList.flatMap (fun sm => ncsMatrixList.map (fun nm => matMul sm nm))
      | none => unitcellMatrixList
    let supercellMatrixList :=
      (supercellShifts.map (getMatrixList uc structureCenterFrac centerFrac symopDict)).flatten
    let supercellPart := match ncs with
      | some _ => supercellMatrixList.flatMap (fun sm => ncsMatrixList.map (fun nm => matMul sm nm))
      | none => supercellMatrixList
    (some unitcellPart, some supercellPart)

/-! ## Claim C4: assembly transform counts -/

/-- First-occurrence deduplication: the distinct keys in insertion order. -/
def dedupFirst (l : List String) : List String :=
  l.foldl (fun acc k => if k ∈ acc then acc else acc ++ [k]) []

/-- The number of distinct compiled operators: distinct `toString` keys. -/
def distinctOperatorCount (operators : List (List String)) : ℕ :=
  (dedupFirst (operators.map keyOf)).length

/-- The factor the NCS assembly contributes: the length of the
identity-prefixed NCS matrix list, or 1 when no NCS assembly is attached. -/
def ncsCount : Option (List Mat4) → ℕ
  | none => 1
  | some l => l.length + 1

lemma dictInsert_keys (d : List (String × Mat4)) (k : String) (v : Mat4) :
    (dictInsert d k v).map Prod.fst =
      if k ∈ d.map Prod.fst then d.map Prod.fst else d.map Prod.fst ++ [k] := by
  unfold dictInsert
  by_cases h : k ∈ d.map Prod.fst
  · obtain ⟨p, hp, hpk⟩ := List.mem_map.mp h
    rw [if_pos (List.any_eq_true.mpr ⟨p, hp, by simp [hpk]⟩), if_pos h, List.map_map]
    apply List.map_congr_left
    intro q _
    by_cases hq : q.1 = k
    · simp [Function.comp, hq]
    · simp [Function.comp, hq]
  · rw [if_neg, if_neg h]
    · simp
    · intro hany
      obtain ⟨p, hp, hpk⟩ := List.any_eq_true.mp hany
      exact h (List.mem_map.mpr ⟨p, hp, by simpa using hpk⟩)

lemma setSymmetryOperations_keys_aux (operators : List (List String)) :
    ∀ d : List (String × Mat4),
      (operators.foldl (fun d symop => dictInsert d (keyOf symop) (compileOperator symop).1) d).map
          Prod.fst =
        (operators.map keyOf).foldl
          (fun acc k => if k ∈ acc then acc else acc ++ [k]) (d.map Prod.fst) := by
  induction operators with
  | nil => intro d; rfl
  | cons op t ih =>
    intro d
    simp only [List.foldl_cons, List.map_cons]
    rw [ih, dictInsert_keys]

/-- The symmetry dictionary holds one entry per distinct operator key. -/
lemma setSymmetryOperations_length (operators : List (List String)) :
    (setSymmetryOperations operators).length = distinctOperatorCount operators := by
  unfold setSymmetryOperations distinctOperatorCount dedupFirst
  rw [← List.length_map _ Prod.fst, setSymmetryOperations_keys_aux operators []]
  rfl

lemma getMatrixList_length (uc : UCMats) (a b : Vec3)
    (symopDict : List (String × Mat4)) (shift : Option Vec3) :
    (getMatrixList uc a b symopDict shift).length = symopDict.length := by
  unfold getMatrixList
  exact List.length_map _ _

lemma bind_const_length (l : List Mat4) (ncsl : List Mat4) :
    (l.flatMap (fun sm => ncsl.map (fun nm => matMul sm nm))).length =
      l.length * ncsl.length := by
  induction l with
  | nil => simp
  | cons m t ih => simp [List.flatMap_cons, ih, Nat.succ_mul, Nat.add_comm]

/-- Claim C4: on a structure with a defined unit cell, the `UNITCELL`
assembly holds one transform per distinct compiled operator, multiplied by the
NCS factor (the identity-prefixed NCS matrix list length) when an NCS
assembly is attached, and the `SUPERCELL` assembly holds 27 times that many
(the zero shift plus the 26 neighbor-cell shifts). -/
theorem C4_assembly_counts (uc : UCMats) (center : Vec3) (ncs : Option (List Mat4))
    (operators : List (List String)) :
    ∃ u sc, buildUnitcellAssembly (some uc) center ncs operators = (some u, some sc) ∧
      u.length = distinctOperatorCount operators * ncsCount ncs ∧
      sc.length = 27 * (distinctOperatorCount operators * ncsCount ncs) := by
  have hD := setSymmetryOperations_length operators
  cases ncs with
  | none =>
    refine ⟨_, _, rfl, ?_, ?_⟩
    · rw [getMatrixList_length, hD]
      simp [ncsCount]
    · rw [List.length_flatten, List.map_map]
      simp [supercellShifts, getMatrixList_length, hD, ncsCount]
      ring
  | some l =>
    refine ⟨_, _, rfl, ?_, ?_⟩
    · rw [bind_const_length, getMatrixList_length, hD]
      simp [ncsCount, Nat.add_comm]
    · rw [bind_const_length, List.length_flatten, List.map_map]
      simp [supercellShifts, getMatrixList_length, hD, ncsCount]
      ring

/-! ## The record scanner (`_parseChunkOfLines`) and `_parse`

The scanner's closure-captured mutable scratch variables become the fields of
`ScanState`; `idx` always equals `atoms.length` (both are incremented exactly
when a row is stored), so the embedding represents the atom store as the list
of stored rows.  The `currentFrame` alias of the source is always the last
frame pushed, so frame writes update the last element of `frames`. -/

/-- One stored atom row of the structural store, with the fields the scanner
writes (`atomStore` columns plus the `sb.addAtom` arguments).  `serial` keeps
the raw token the source assigns into the typed array (the numeric coercion
the store applies is irrelevant to the claims); `pcharge` is the source's
partial-charge column. -/
structure AtomRow where
  atomname : Option String
  element : Option String
  x : JSNum
  y : JSNum
  z : JSNum
  serial : Option String
  pcharge : JSNum
  modelIdx : Int
  resname : String
  resno : Option Int
  deriving DecidableEq

/-- One stored bond row: absolute atom indices (`none` models a `NaN` index
from an unparsable field) and the mapped order (`none` models the
`undefined` produced by a token outside the `bondTypes` table). -/
structure BondRow where
  i : Option Int
  j : Option Int
  order : Option ℕ
  deriving DecidableEq

/-- The `unitcellDict` scratch object (`Partial<...>` — every field starts
unassigned). -/
structure CellDict where
  a : Option JSNum := none
  b : Option JSNum := none
  c : Option JSNum := none
  alpha : Option JSNum := none
  beta : Option JSNum := none
  gamma : Option JSNum := none
  deriving DecidableEq

/-- A trajectory frame: the `Float32Array` contents. -/
abbrev Frame := List JSNum

/-- The `bondTypes` table. -/
def bondTypes (t : String) : Option ℕ :=
  if t = "1" then some 1
  else if t = "2" then some 2
  else if t = "3" then some 3
  else if t = "am" then some 1
  else if t = "ar" then some 1
  else if t = "du" then some 1
  else if t = "un" then some 1
  else if t = "nc" then some 0
  else none

/-- The scanner state: the mutable scratch of `_parseChunkOfLines` plus the
structure fields it populates.  `warnings` records `Log.warn` calls — the
scanner source contains none, so no transition appends to it.  Record types:
0 none, 1 MOLECULE, 2 ATOM, 3 BOND, 4 CRYSIN. -/
structure ScanState where
  currentRecordType : ℕ := 0
  moleculeLineNo : ℕ := 0
  modelAtomIdxStart : ℕ := 0
  modelIdx : Int := -1
  numAtoms : Option Int := some 0
  doFrames : Bool := false
  currentCoord : ℕ := 0
  frames : List Frame := []
  title : String := ""
  sid : String := ""
  atoms : List AtomRow := []
  bonds : List BondRow := []
  cell : CellDict := {}
  warnings : List String := []
  deriving DecidableEq

/-- The length of `new Float32Array(numAtoms * 3)`: a `NaN` count gives
length 0 (`ToIndex(NaN) = 0`); a negative count throws in JavaScript and is
clamped to 0 here (unreachable: the scanner only stores parsed naturals or
`NaN`). -/
def frameSize (numAtoms : Option Int) : ℕ :=
  match numAtoms with
  | some n => n.toNat * 3
  | none => 0

/-- Updates the last frame of the list — the source's `currentFrame` alias
always denotes the most recently pushed frame. -/
def setLast (fs : List Frame) (g : Frame → Frame) : List Frame :=
  match fs with
  | [] => []
  | [f] => [g f]
  | f :: rest => f :: setLast rest g

/-- The three coordinate writes `currentFrame[j], [j+1], [j+2]`
(out-of-range typed-array writes are dropped, as `List.set` drops them). -/
def writeCoord3 (j : ℕ) (x y z : JSNum) (fr : Frame) : Frame :=
  ((fr.set j x).set (j + 1) y).set (j + 2) z

/-- The atom row an ATOM-state line stores.  `element` is
`ls[5].split('.')[0]`; when `ls[5]` is `undefined` the source throws a
`TypeError` on the `.split` that aborts the whole parse, while this total
embedding yields `none` — so every theorem whose scan stores atom rows
carries the hypothesis that each stored atom line has at least six
whitespace-separated fields, the domain on which the embedding agrees with
the source.  `resno`, `resname` and the partial charge apply the source's
truthiness defaults. -/
def atomOfTokens (ls : List String) (modelIdx : Int) : AtomRow :=
  { atomname := ls.get? 1
    element := (ls.get? 5).map (fun s => (jsSplitChar '.' s).getD 0 "")
    x := jsParseFloatOpt (ls.get? 2)
    y := jsParseFloatOpt (ls.get? 3)
    z := jsParseFloatOpt (ls.get? 4)
    serial := ls.get? 0
    pcharge := match ls.get? 8 with
      | some s => if s ≠ "" then jsParseFloat s else some 0
      | none => some 0
    modelIdx := modelIdx
    resname := (ls.get? 7).getD ""
    resno := match ls.get? 6 with
      | some s => if s ≠ "" then jsParseInt s else some 1
      | none => some 1 }

/-- The bond row a BOND-state line stores: 1-based file-local indices shifted
by the model's atom-index base, and the order token mapped through
`bondTypes`. -/
def bondOfLine (st : ScanState) (line : String) : BondRow :=
  let ls := jsSplitWs (jsTrim line)
  { i := (jsParseIntOpt (ls.get? 1)).map (fun n => n - 1 + (st.modelAtomIdxStart : Int))
    j := (jsParseIntOpt (ls.get? 2)).map (fun n => n - 1 + (st.modelAtomIdxStart : Int))
    order := (ls.get? 3).bind bondTypes }

/-- The marker-line dispatch (`line[0] === '@'`). -/
def scanMarker (asTrajectory : Bool) (st : ScanState) (line : String) : ScanState :=
  if line = "@<TRIPOS>MOLECULE" then
    { st with currentRecordType := 1, moleculeLineNo := 0, modelIdx := st.modelIdx + 1 }
  else if line = "@<TRIPOS>ATOM" then
    if asTrajectory = true then
      { st with
          currentRecordType := 2, modelAtomIdxStart := st.atoms.length,
          currentCoord := 0,
          frames := st.frames ++ [List.replicate (frameSize st.numAtoms) (some 0)],
          doFrames := if st.modelIdx > 0 then true else st.doFrames }
    else
      { st with currentRecordType := 2, modelAtomIdxStart := st.atoms.length }
  else if line = "@<TRIPOS>BOND" then { st with currentRecordType := 3 }
  else if line = "@<TRIPOS>CRYSIN" then { st with currentRecordType := 4 }
  else { st with currentRecordType := 0 }

/-- The MOLECULE-state branch: positional header lines. -/
def scanMolecule (st : ScanState) (line : String) : ScanState :=
  let st2 :=
    if st.moleculeLineNo = 0 then { st with title := line, sid := line }
    else if st.moleculeLineNo = 1 then
      { st with numAtoms := jsParseIntOpt ((jsSplitWs line).get? 0) }
    else st
  { st2 with moleculeLineNo := st.moleculeLineNo + 1 }

/-- The ATOM-state branch: optional frame write, optional atom-row store. -/
def scanAtom (firstModelOnly asTrajectory : Bool) (st : ScanState)
    (line : String) : ScanState :=
  if firstModelOnly = true ∧ st.modelIdx > 0 then st
  else
    let ls := jsSplitWs line
    let st1 :=
      if asTrajectory = true then
        { st with
            frames := setLast st.frames
              (writeCoord3 (st.currentCoord * 3) (jsParseFloatOpt (ls.get? 2))
                (jsParseFloatOpt (ls.get? 3)) (jsParseFloatOpt (ls.get? 4))),
            currentCoord := st.currentCoord + 1 }
      else st
    if asTrajectory = true ∧ st.doFrames = true then st1
    else { st1 with atoms := st1.atoms ++ [atomOfTokens ls st.modelIdx] }

/-- The BOND-state branch. -/
def scanBond (firstModelOnly asTrajectory : Bool) (st : ScanState)
    (line : String) : ScanState :=
  if firstModelOnly = true ∧ st.modelIdx > 0 then st
  else if asTrajectory = true ∧ st.modelIdx > 0 then st
  else { st with bonds := st.bonds ++ [bondOfLine st line] }

/-- The CRYSIN-state branch: all six cell fields assigned at once. -/
def scanCrysin (st : ScanState) (line : String) : ScanState :=
  let ls := jsSplitWs line
  { st with cell :=
    { a := some (jsParseFloatOpt (ls.get? 0))
      b := some (jsParseFloatOpt (ls.get? 1))
      c := some (jsParseFloatOpt (ls.get? 2))
      alpha := some (jsParseFloatOpt (ls.get? 3))
      beta := some (jsParseFloatOpt (ls.get? 4))
      gamma := some (jsParseFloatOpt (ls.get? 5)) } }

/-- One line of `_parseChunkOfLines`: skip blank and comment lines, dispatch
marker lines, otherwise dispatch on the current record type. -/
def scanLine (firstModelOnly asTrajectory : Bool) (st : ScanState)
    (rawLine : String) : ScanState :=
  let line := jsTrim rawLine
  if line = "" then st
  else if jsCharAt0 line = some '#' then st
  else if jsCharAt0 line = some '@' then scanMarker asTrajectory st line
  else if st.currentRecordType = 1 then scanMolecule st line
  else if st.currentRecordType = 2 then scanAtom firstModelOnly asTrajectory st line
  else if st.currentRecordType = 3 then scanBond firstModelOnly asTrajectory st rawLine
  else if st.currentRecordType = 4 then scanCrysin st line
  else st

/-- The JSON envelope (`IAccessStructuresMolData`). -/
structure MolData where
  mol2 : String
  spacegroupOperators : String
  cellDimensions : String
  deriving DecidableEq

/-- The parsed structure, with the fields the claims observe.  The two
assembly slots are `none` when the builder returned without attaching them. -/
structure ParseResult where
  title : String
  sid : String
  atoms : List AtomRow
  bonds : List BondRow
  frames : List Frame
  unitcell : Option CellDict
  biomolUNITCELL : Option (List Mat4)
  biomolSUPERCELL : Option (List Mat4)
  warnings : List String
  deriving DecidableEq

/-- The scan of the whole document: `jsonData.mol2.split('\n')` folded
through the line scanner from the initial scratch state. -/
def scanDoc (firstModelOnly asTrajectory : Bool) (mol2 : String) : ScanState :=
  (jsSplitChar '\n' mol2).foldl (scanLine firstModelOnly asTrajectory) {}

/-- `_parse`: scan the envelope's `mol2` text, set the unit cell when the
`a` field of the cell dictionary was assigned, extract and uppercase the
operators from the envelope's `spacegroupOperators`, and build the unit-cell
assemblies.  The external collaborators are parameters: `derive` stands for
the `Unitcell` constructor's derived transforms, `centerOf` for the
`structure.center` computed by finalization; no NCS assembly exists on a
freshly parsed structure.  The envelope's `cellDimensions` field is not read
anywhere in `_parse` — the embedding takes `jsonData` whole to make that
observable. -/
def ccdcParse (firstModelOnly asTrajectory : Bool)
    (derive : CellDict → UCMats) (centerOf : List AtomRow → Vec3)
    (jsonData : MolData) : ParseResult :=
  let st := scanDoc firstModelOnly asTrajectory jsonData.mol2
  let unitcell := if st.cell.a.isSome then some st.cell else none
  let operators := parseEnvelopeOperators jsonData.spacegroupOperators
  let ucm : Option UCMats := match unitcell with
    | some cd => some (derive cd)
    | none => none
  let built := buildUnitcellAssembly ucm (centerOf st.atoms) none operators
  { title := st.title, sid := st.sid, atoms := st.atoms, bonds := st.bonds,
    frames := st.frames, unitcell := unitcell,
    biomolUNITCELL := built.1, biomolSUPERCELL := built.2,
    warnings := st.warnings ++ (operators.map (fun op => (compileOperator op).2)).flatten }

/-! ## Line-level facts about the scanner -/

/-- A line that survives the skip checks and is not a record marker. -/
def isDataLine (s : String) : Prop :=
  jsTrim s ≠ "" ∧ jsCharAt0 (jsTrim s) ≠ some '#' ∧ jsCharAt0 (jsTrim s) ≠ some '@'

/-- A data line scanned in BOND state with no skip policy active appends
exactly one bond row and changes nothing else. -/
lemma scanLine_bond_step (firstModelOnly asTrajectory : Bool) (st : ScanState)
    (l : String) (hd : isDataLine l) (hrt : st.currentRecordType = 3)
    (hskip1 : ¬(firstModelOnly = true ∧ st.modelIdx > 0))
    (hskip2 : ¬(asTrajectory = true ∧ st.modelIdx > 0)) :
    scanLine firstModelOnly asTrajectory st l =
      { st with bonds := st.bonds ++ [bondOfLine st l] } := by
  obtain ⟨h1, h2, h3⟩ := hd
  unfold scanLine
  rw [if_neg h1, if_neg h2, if_neg h3, if_neg (by rw [hrt]; decide),
    if_neg (by rw [hrt]; decide), if_pos hrt]
  unfold scanBond
  rw [if_neg hskip1, if_neg hskip2]

/-- A data line scanned in BOND state when the trajectory policy is active
and the model index is positive is skipped entirely. -/
lemma scanLine_bond_skip (st : ScanState) (l : String) (hd : isDataLine l)
    (hrt : st.currentRecordType = 3) (hm : st.modelIdx > 0) :
    scanLine false true st l = st := by
  obtain ⟨h1, h2, h3⟩ := hd
  unfold scanLine
  rw [if_neg h1, if_neg h2, if_neg h3, if_neg (by rw [hrt]; decide),
    if_neg (by rw [hrt]; decide), if_pos hrt]
  unfold scanBond
  rw [if_neg (by simp), if_pos ⟨rfl, hm⟩]

/-! ## Claim C7: bond-order tokens -/

/-- Claim C7 (amended): every bond line scanned in BOND state stores exactly
one bond whose order is the token mapped through the fixed `bondTypes` table
(`1→1, 2→2, 3→3, am→1, ar→1, du→1, un→1, nc→0`); a token outside the table
leaves the stored order absent (`undefined`), **silently** — no warning is
logged — and the scan continues with the previously stored bonds unchanged. -/
theorem C7_bond_order (firstModelOnly asTrajectory : Bool) (st : ScanState)
    (l : String) (hd : isDataLine l) (hrt : st.currentRecordType = 3)
    (hskip1 : ¬(firstModelOnly = true ∧ st.modelIdx > 0))
    (hskip2 : ¬(asTrajectory = true ∧ st.modelIdx > 0)) :
    scanLine firstModelOnly asTrajectory st l =
      { st with bonds := st.bonds ++ [bondOfLine st l] } ∧
    (bondOfLine st l).order = ((jsSplitWs (jsTrim l)).get? 3).bind bondTypes ∧
    (scanLine firstModelOnly asTrajectory st l).warnings = st.warnings ∧
    bondTypes "1" = some 1 ∧ bondTypes "2" = some 2 ∧ bondTypes "3" = some 3 ∧
    bondTypes "am" = some 1 ∧ bondTypes "ar" = some 1 ∧ bondTypes "du" = some 1 ∧
    bondTypes "un" = some 1 ∧ bondTypes "nc" = some 0 ∧
    (∀ t : String, t ∉ (["1", "2", "3", "am", "ar", "du", "un", "nc"] : List String) →
      bondTypes t = none) := by
  have hmain := scanLine_bond_step firstModelOnly asTrajectory st l hd hrt hskip1 hskip2
  refine ⟨hmain, rfl, by rw [hmain], rfl, rfl, rfl, rfl, rfl, rfl, rfl, rfl, ?_⟩
  intro t ht
  simp only [List.mem_cons, List.mem_singleton, not_or] at ht
  obtain ⟨n1, n2, n3, n4, n5, n6, n7, n8, _⟩ := ht
  simp [bondTypes, n1, n2, n3, n4, n5, n6, n7, n8]

/-- Claim C7 (witness): the step applied to a bond line with the unknown
order token `xx` in a BOND-state scan. -/
theorem C7_bond_order_witness :
    scanLine false false { currentRecordType := 3 } "1 1 2 xx" =
      { ({ currentRecordType := 3 } : ScanState) with
          bonds := [bondOfLine { currentRecordType := 3 } "1 1 2 xx"] } ∧
    bondTypes "xx" = none :=
  ⟨(C7_bond_order false false { currentRecordType := 3 } "1 1 2 xx"
      ⟨by decide, by decide, by decide⟩ rfl (by simp) (by simp)).1,
   (C7_bond_order false false { currentRecordType := 3 } "1 1 2 xx"
      ⟨by decide, by decide, by decide⟩ rfl (by simp) (by simp)).2.2.2.2.2.2.2.2.2.2.2
     "xx" (by decide)⟩

/-! ## Claim C8: missing cell dimensions -/

/-- Every scanner transition either leaves the cell dictionary untouched or
assigns all six of its fields at once (the CRYSIN branch). -/
lemma scanMarker_cell (a : Bool) (st : ScanState) (l : String) :
    (scanMarker a st l).cell = st.cell := by
  simp only [scanMarker]
  split_ifs <;> rfl

lemma scanMolecule_cell (st : ScanState) (l : String) :
    (scanMolecule st l).cell = st.cell := by
  simp only [scanMolecule]
  split_ifs <;> rfl

lemma scanAtom_cell (f a : Bool) (st : ScanState) (l : String) :
    (scanAtom f a st l).cell = st.cell := by
  simp only [scanAtom]
  split_ifs <;> rfl

lemma scanBond_cell (f a : Bool) (st : ScanState) (l : String) :
    (scanBond f a st l).cell = st.cell := by
  simp only [scanBond]
  split_ifs <;> rfl

lemma scanCrysin_cell (st : ScanState) (l : String) :
    (scanCrysin st l).cell =
      ⟨some (jsParseFloatOpt ((jsSplitWs l).get? 0)),
       some (jsParseFloatOpt ((jsSplitWs l).get? 1)),
       some (jsParseFloatOpt ((jsSplitWs l).get? 2)),
       some (jsParseFloatOpt ((jsSplitWs l).get? 3)),
       some (jsParseFloatOpt ((jsSplitWs l).get? 4)),
       some (jsParseFloatOpt ((jsSplitWs l).get? 5))⟩ := rfl

lemma scanLine_cell_cases (f a : Bool) (st : ScanState) (l : String) :
    (scanLine f a st l).cell = st.cell ∨
      ∃ v1 v2 v3 v4 v5 v6, (scanLine f a st l).cell =
        ⟨some v1, some v2, some v3, some v4, some v5, some v6⟩ := by
  simp only [scanLine]
  split_ifs
  · left; rfl
  · left; rfl
  · left; exact scanMarker_cell a st (jsTrim l)
  · left; exact scanMolecule_cell st (jsTrim l)
  · left; exact scanAtom_cell f a st (jsTrim l)
  · left; exact scanBond_cell f a st l
  · right; exact ⟨_, _, _, _, _, _, scanCrysin_cell st (jsTrim l)⟩
  · left; rfl

/-- Fold version of `scanLine_cell_cases`: once unset, the `a` field stays
unset unless all six fields are set together. -/
lemma foldl_cell_invariant (f a : Bool) (lines : List String) :
    ∀ st : ScanState,
      (st.cell.a.isSome →
        st.cell.b.isSome ∧ st.cell.c.isSome ∧ st.cell.alpha.isSome ∧
        st.cell.beta.isSome ∧ st.cell.gamma.isSome) →
      ((lines.foldl (scanLine f a) st).cell.a.isSome →
        (lines.foldl (scanLine f a) st).cell.b.isSome ∧
        (lines.foldl (scanLine f a) st).cell.c.isSome ∧
        (lines.foldl (scanLine f a) st).cell.alpha.isSome ∧
        (lines.foldl (scanLine f a) st).cell.beta.isSome ∧
        (lines.foldl (scanLine f a) st).cell.gamma.isSome) := by
  induction lines with
  | nil => intro st h; exact h
  | cons l t ih =>
    intro st h
    rw [List.foldl_cons]
    apply ih
    rcases scanLine_cell_cases f a st l with hc | ⟨v1, v2, v3, v4, v5, v6, hc⟩
    · rw [hc]; exact h
    · rw [hc]; intro _; exact ⟨rfl, rfl, rfl, rfl, rfl⟩

/-- Claim C8: the parsed structure's unit cell is defined only when all six
scalars were assigned from a cell record (they are only ever assigned
together, so a defined cell has all six set); when the cell dictionary was
never populated the unit cell is left undefined and the assembly builder
returns early — no `UNITCELL` or `SUPERCELL` assembly is attached — and the
parse (a total function) completes without error. -/
theorem C8_missing_cell (firstModelOnly asTrajectory : Bool)
    (derive : CellDict → UCMats) (centerOf : List AtomRow → Vec3) (jd : MolData) :
    ((ccdcParse firstModelOnly asTrajectory derive centerOf jd).unitcell = none →
      (ccdcParse firstModelOnly asTrajectory derive centerOf jd).biomolUNITCELL = none ∧
      (ccdcParse firstModelOnly asTrajectory derive centerOf jd).biomolSUPERCELL = none) ∧
    (∀ d : CellDict,
      (ccdcParse firstModelOnly asTrajectory derive centerOf jd).unitcell = some d →
      d.a.isSome ∧ d.b.isSome ∧ d.c.isSome ∧ d.alpha.isSome ∧ d.beta.isSome ∧
        d.gamma.isSome) := by
  by_cases hst : (scanDoc firstModelOnly asTrajectory jd.mol2).cell.a.isSome
  · constructor
    · intro h
      simp [ccdcParse, hst] at h
    · intro d hd
      simp only [ccdcParse, hst, if_pos, Option.some_inj] at hd
      subst hd
      have hall := foldl_cell_invariant firstModelOnly asTrajectory
        (jsSplitChar '\n' jd.mol2) {} (by intro h; simp at h) hst
      exact ⟨hst, hall⟩
  · constructor
    · intro _
      simp [ccdcParse, hst, buildUnitcellAssembly]
    · intro d hd
      simp [ccdcParse, hst] at hd

/-- A trivial stand-in for the external `Unitcell` transform derivation, used
to instantiate the parse at concrete inputs. -/
def trivialDerive : CellDict → UCMats := fun _ => ⟨matIdentity, matIdentity⟩

/-- A trivial stand-in for the external centroid computation, used to
instantiate the parse at concrete inputs. -/
def trivialCenter : List AtomRow → Vec3 := fun _ => ⟨0, 0, 0⟩

/-- A minimal envelope whose `mol2` text has no CRYSIN record. -/
def mdNoCell : MolData :=
  ⟨"@<TRIPOS>MOLECULE\nm\n1 1\n@<TRIPOS>ATOM\n1 C1 0.0 0.0 0.0 C", "X,Y,Z",
    "1 2 3 90 90 90"⟩

/-- A minimal envelope whose `mol2` text carries a CRYSIN record. -/
def mdCell : MolData :=
  ⟨"@<TRIPOS>MOLECULE\nm\n1 1\n@<TRIPOS>CRYSIN\n5 6 7 90 90 90 29 5", "X,Y,Z",
    "1 2 3 90 90 90"⟩

/-- Claim C8 (witness): a document without a cell record parses to an
undefined unit cell and no assemblies; one with a cell record parses to a
unit cell with all six scalars assigned. -/
theorem C8_missing_cell_witness :
    ((ccdcParse false false trivialDerive trivialCenter mdNoCell).biomolUNITCELL = none ∧
     (ccdcParse false false trivialDerive trivialCenter mdNoCell).biomolSUPERCELL = none) ∧
    ((scanDoc false false mdCell.mol2).cell.a.isSome ∧
     (scanDoc false false mdCell.mol2).cell.b.isSome ∧
     (scanDoc false false mdCell.mol2).cell.c.isSome ∧
     (scanDoc false false mdCell.mol2).cell.alpha.isSome ∧
     (scanDoc false false mdCell.mol2).cell.beta.isSome ∧
     (scanDoc false false mdCell.mol2).cell.gamma.isSome) :=
  ⟨(C8_missing_cell false false trivialDerive trivialCenter mdNoCell).1 (by rfl),
   (C8_missing_cell false false trivialDerive trivialCenter mdCell).2
     (scanDoc false false mdCell.mol2).cell (by rfl)⟩

/-! ## Claim C6: the JSON envelope -/

/-- Claim C6 (amended): the parse reads exactly two envelope fields — the
record-tagged `mol2` text and the `spacegroupOperators` string.  The
symmetry operators are taken from the envelope, but the cell dimensions are
**not**: the `cellDimensions` field is never read (two envelopes agreeing on
`mol2` and `spacegroupOperators` parse identically), and the unit cell comes
from the CRYSIN record embedded in the `mol2` text. -/
theorem C6_envelope_fields (firstModelOnly asTrajectory : Bool)
    (derive : CellDict → UCMats) (centerOf : List AtomRow → Vec3)
    (jd jd2 : MolData) (hmol : jd.mol2 = jd2.mol2)
    (hops : jd.spacegroupOperators = jd2.spacegroupOperators) :
    ccdcParse firstModelOnly asTrajectory derive centerOf jd =
      ccdcParse firstModelOnly asTrajectory derive centerOf jd2 ∧
    (ccdcParse firstModelOnly asTrajectory derive centerOf jd).unitcell =
      (if (scanDoc firstModelOnly asTrajectory jd.mol2).cell.a.isSome then
        some (scanDoc firstModelOnly asTrajectory jd.mol2).cell
       else none) := by
  constructor
  · unfold ccdcParse
    rw [hmol, hops]
  · rfl

/-- Claim C6 (witness): two envelopes differing only in `cellDimensions`
parse identically. -/
theorem C6_envelope_fields_witness :
    ccdcParse false false trivialDerive trivialCenter mdCell =
      ccdcParse false false trivialDerive trivialCenter
        ⟨mdCell.mol2, mdCell.spacegroupOperators, "99 99 99 1 2 3"⟩ :=
  (C6_envelope_fields false false trivialDerive trivialCenter mdCell
    ⟨mdCell.mol2, mdCell.spacegroupOperators, "99 99 99 1 2 3"⟩ rfl rfl).1

/-- Claim C6 (counterexample): for an envelope whose `cellDimensions` field
says `a = 1` while the CRYSIN record embedded in the `mol2` text says
`a = 5`, the parsed unit cell has `a = 5`: the cell dimensions are taken from
the embedded record, not from the envelope field as the claim states. -/
theorem C6_counterexample :
    (ccdcParse false false trivialDerive trivialCenter
        ⟨"@<TRIPOS>CRYSIN\n5 6 7 90 90 90", "X,Y,Z", "1 2 3 90 90 90"⟩).unitcell =
      some ⟨some (jsParseFloat "5"), some (jsParseFloat "6"), some (jsParseFloat "7"),
        some (jsParseFloat "90"), some (jsParseFloat "90"), some (jsParseFloat "90")⟩ ∧
    jsParseFloat "5" = some 5 ∧ jsParseFloat "1" = some 1 ∧ (5 : ℚ) ≠ 1 := by
  refine ⟨rfl, ?_, ?_, by norm_num⟩ <;>
    simp [jsParseFloat, digitsVal]

/-! ## Claim C5: trajectory parsing

A generated multi-model document: each model contributes a MOLECULE marker,
a name line, the count line, an ATOM marker, its atom lines, a BOND marker
and its bond lines. -/

/-- One model block of a generated document. -/
structure ModelSpec where
  name : String
  countLine : String
  atomLines : List String
  bondLines : List String

/-- The lines of one model block. -/
def modelLines (m : ModelSpec) : List String :=
  ["@<TRIPOS>MOLECULE", m.name, m.countLine, "@<TRIPOS>ATOM"] ++ m.atomLines ++
    ("@<TRIPOS>BOND" :: m.bondLines)

/-- The lines of the generated document. -/
def docLines (ms : List ModelSpec) : List String :=
  (ms.map modelLines).flatten

/-- Newline-joins a list of lines. -/
def joinLines : List (List Char) → List Char
  | [] => []
  | [l] => l
  | l :: rest => l ++ '\n' :: joinLines rest

/-- The generated document text. -/
def docText (ms : List ModelSpec) : String :=
  ⟨joinLines ((docLines ms).map String.data)⟩

lemma splitCharList_ne_nil (sep : Char) (l : List Char) :
    splitCharList sep l ≠ [] := by
  cases l with
  | nil => simp [splitCharList]
  | cons c cs =>
    simp only [splitCharList]
    rcases hs : splitCharList sep cs with _ | ⟨h, t⟩
    · simp
    · split_ifs <;> simp

lemma splitCharList_no_sep (sep : Char) (l : List Char) (h : sep ∉ l) :
    splitCharList sep l = [l] := by
  induction l with
  | nil => rfl
  | cons c t ih =>
    have hc : c ≠ sep := fun hx => h (hx ▸ List.mem_cons_self c t)
    have ht : sep ∉ t := fun hx => h (List.mem_cons_of_mem c hx)
    simp only [splitCharList, ih ht]
    rw [if_neg hc]

lemma splitCharList_append_sep (sep : Char) (l rest : List Char) (h : sep ∉ l) :
    splitCharList sep (l ++ sep :: rest) = l :: splitCharList sep rest := by
  induction l with
  | nil =>
    obtain ⟨h0, t0, hs⟩ := List.exists_cons_of_ne_nil (splitCharList_ne_nil sep rest)
    simp [List.nil_append, splitCharList, hs]
  | cons c t ih =>
    have hc : c ≠ sep := fun hx => h (hx ▸ List.mem_cons_self c _)
    have ht : sep ∉ t := fun hx => h (List.mem_cons_of_mem c hx)
    rw [List.cons_append]
    simp only [splitCharList]
    rw [ih ht]
    simp [hc]

lemma splitCharList_joinLines (ls : List (List Char)) (hne : ls ≠ [])
    (h : ∀ l ∈ ls, '\n' ∉ l) :
    splitCharList '\n' (joinLines ls) = ls := by
  induction ls with
  | nil => exact absurd rfl hne
  | cons l t ih =>
    cases t with
    | nil => exact splitCharList_no_sep '\n' l (h l (by simp))
    | cons l2 t2 =>
      show splitCharList '\n' (l ++ '\n' :: joinLines (l2 :: t2)) = l :: l2 :: t2
      rw [splitCharList_append_sep '\n' l _ (h l (by simp)),
        ih (by simp) (fun x hx => h x (by simp [hx]))]

lemma string_mk_data (s : String) : (⟨s.data⟩ : String) = s := by
  cases s; rfl

/-- Splitting the generated text on newlines recovers the generated lines. -/
lemma jsSplitChar_docText (ms : List ModelSpec) (hne : docLines ms ≠ [])
    (h : ∀ l ∈ docLines ms, '\n' ∉ l.data) :
    jsSplitChar '\n' (docText ms) = docLines ms := by
  have hmem : ∀ l ∈ (docLines ms).map String.data, '\n' ∉ l := by
    intro l hl
    obtain ⟨x, hx, hxd⟩ := List.mem_map.mp hl
    exact hxd ▸ h x hx
  unfold jsSplitChar docText
  rw [show (String.mk (joinLines ((docLines ms).map String.data))).data =
      joinLines ((docLines ms).map String.data) from rfl]
  rw [splitCharList_joinLines ((docLines ms).map String.data) (by simpa using hne) hmem]
  rw [List.map_map]
  have hid : ∀ x ∈ docLines ms,
      ((fun l => (⟨l⟩ : String)) ∘ String.data) x = id x :=
    fun x _ => string_mk_data x
  rw [List.map_congr_left hid, List.map_id]

lemma scanLine_marker_molecule (f a : Bool) (st : ScanState) :
    scanLine f a st "@<TRIPOS>MOLECULE" =
      { st with currentRecordType := 1, moleculeLineNo := 0,
                modelIdx := st.modelIdx + 1 } := by
  have ht : jsTrim "@<TRIPOS>MOLECULE" = "@<TRIPOS>MOLECULE" := by decide
  simp only [scanLine, ht]
  rw [if_neg (by decide), if_neg (by decide), if_pos (by decide)]
  unfold scanMarker
  rw [if_pos rfl]

lemma scanLine_marker_atom_traj (f : Bool) (st : ScanState) :
    scanLine f true st "@<TRIPOS>ATOM" =
      { st with
          currentRecordType := 2, modelAtomIdxStart := st.atoms.length,
          currentCoord := 0,
          frames := st.frames ++ [List.replicate (frameSize st.numAtoms) (some 0)],
          doFrames := if st.modelIdx > 0 then true else st.doFrames } := by
  have ht : jsTrim "@<TRIPOS>ATOM" = "@<TRIPOS>ATOM" := by decide
  simp only [scanLine, ht]
  rw [if_neg (by decide), if_neg (by decide), if_pos (by decide)]
  unfold scanMarker
  rw [if_neg (by decide), if_pos rfl, if_pos rfl]

lemma scanLine_marker_bond (f a : Bool) (st : ScanState) :
    scanLine f a st "@<TRIPOS>BOND" = { st with currentRecordType := 3 } := by
  have ht : jsTrim "@<TRIPOS>BOND" = "@<TRIPOS>BOND" := by decide
  simp only [scanLine, ht]
  rw [if_neg (by decide), if_neg (by decide), if_pos (by decide)]
  unfold scanMarker
  rw [if_neg (by decide), if_neg (by decide), if_pos rfl]

/-- A data line dispatches on the current record type. -/
lemma scanLine_data_rt1 (f a : Bool) (st : ScanState) (l : String)
    (hd : isDataLine l) (h1 : st.currentRecordType = 1) :
    scanLine f a st l = scanMolecule st (jsTrim l) := by
  obtain ⟨hh1, hh2, hh3⟩ := hd
  unfold scanLine
  rw [if_neg hh1, if_neg hh2, if_neg hh3, if_pos h1]

lemma scanLine_data_rt2 (f a : Bool) (st : ScanState) (l : String)
    (hd : isDataLine l) (h2 : st.currentRecordType = 2) :
    scanLine f a st l = scanAtom f a st (jsTrim l) := by
  obtain ⟨hh1, hh2, hh3⟩ := hd
  unfold scanLine
  rw [if_neg hh1, if_neg hh2, if_neg hh3, if_neg (by rw [h2]; decide), if_pos h2]

lemma scanMolecule_line0 (st : ScanState) (l : String) (h : st.moleculeLineNo = 0) :
    scanMolecule st l = { st with title := l, sid := l, moleculeLineNo := 1 } := by
  simp [scanMolecule, h]

lemma scanMolecule_line1 (st : ScanState) (l : String) (h : st.moleculeLineNo = 1) :
    scanMolecule st l =
      { st with numAtoms := jsParseIntOpt ((jsSplitWs l).get? 0),
                moleculeLineNo := 2 } := by
  simp [scanMolecule, h]

lemma scanAtom_traj_skip (st : ScanState) (l : String) (hdo : st.doFrames = true) :
    scanAtom false true st l =
      { st with
          frames := setLast st.frames
            (writeCoord3 (st.currentCoord * 3) (jsParseFloatOpt ((jsSplitWs l).get? 2))
              (jsParseFloatOpt ((jsSplitWs l).get? 3))
              (jsParseFloatOpt ((jsSplitWs l).get? 4))),
          currentCoord := st.currentCoord + 1 } := by
  simp [scanAtom, hdo]

lemma scanAtom_traj_store (st : ScanState) (l : String) (hdo : st.doFrames = false) :
    scanAtom false true st l =
      { st with
          frames := setLast st.frames
            (writeCoord3 (st.currentCoord * 3) (jsParseFloatOpt ((jsSplitWs l).get? 2))
              (jsParseFloatOpt ((jsSplitWs l).get? 3))
              (jsParseFloatOpt ((jsSplitWs l).get? 4))),
          currentCoord := st.currentCoord + 1,
          atoms := st.atoms ++ [atomOfTokens (jsSplitWs l) st.modelIdx] } := by
  simp [scanAtom, hdo]

lemma writeCoord3_length (j : ℕ) (x y z : JSNum) (fr : Frame) :
    (writeCoord3 j x y z fr).length = fr.length := by
  simp [writeCoord3]

lemma setLast_ne_nil (x : Frame) (xs : List Frame) (g : Frame → Frame) :
    setLast (x :: xs) g ≠ [] := by
  cases xs <;> simp [setLast]

lemma setLast_cons_of_ne_nil (f : Frame) (X : List Frame) (g : Frame → Frame)
    (h : X ≠ []) : setLast (f :: X) g = f :: setLast X g := by
  cases X with
  | nil => exact absurd rfl h
  | cons a b => rfl

lemma setLast_id (fs : List Frame) : setLast fs (fun f => f) = fs := by
  induction fs with
  | nil => rfl
  | cons f t ih =>
    cases t with
    | nil => rfl
    | cons f2 t2 =>
      show f :: setLast (f2 :: t2) (fun f => f) = f :: f2 :: t2
      rw [ih]

lemma setLast_setLast (fs : List Frame) (g1 g2 : Frame → Frame) :
    setLast (setLast fs g1) g2 = setLast fs (fun f => g2 (g1 f)) := by
  induction fs with
  | nil => rfl
  | cons f t ih =>
    cases t with
    | nil => rfl
    | cons f2 t2 =>
      show setLast (f :: setLast (f2 :: t2) g1) g2 =
        f :: setLast (f2 :: t2) (fun f => g2 (g1 f))
      rw [setLast_cons_of_ne_nil f _ g2 (setLast_ne_nil f2 t2 g1), ih]

lemma setLast_append_singleton (fs : List Frame) (f : Frame) (g : Frame → Frame) :
    setLast (fs ++ [f]) g = fs ++ [g f] := by
  induction fs with
  | nil => rfl
  | cons f0 t ih =>
    rw [List.cons_append, setLast_cons_of_ne_nil f0 _ g (by simp), ih, List.cons_append]

/-- Folding data lines in ATOM state with `doFrames` set: only the last frame
and the coordinate cursor change, and the frame lengths are preserved. -/
lemma foldl_atoms_skip (ls : List String) :
    ∀ st : ScanState, (∀ l ∈ ls, isDataLine l) → st.currentRecordType = 2 →
      st.doFrames = true →
      ∃ g : Frame → Frame, (∀ fr, (g fr).length = fr.length) ∧
        ls.foldl (scanLine false true) st =
          { st with frames := setLast st.frames g,
                    currentCoord := st.currentCoord + ls.length } := by
  induction ls with
  | nil =>
    intro st _ _ _
    refine ⟨fun f => f, fun _ => rfl, ?_⟩
    rw [setLast_id]
    simp
  | cons l t ih =>
    intro st hls h2 hdo
    rw [List.foldl_cons, scanLine_data_rt2 false true st l (hls l (by simp)) h2,
      scanAtom_traj_skip st (jsTrim l) hdo]
    obtain ⟨g, hg, hfold⟩ := ih
      { st with
          frames := setLast st.frames
            (writeCoord3 (st.currentCoord * 3) (jsParseFloatOpt ((jsSplitWs (jsTrim l)).get? 2))
              (jsParseFloatOpt ((jsSplitWs (jsTrim l)).get? 3))
              (jsParseFloatOpt ((jsSplitWs (jsTrim l)).get? 4))),
          currentCoord := st.currentCoord + 1 }
      (fun x hx => hls x (by simp [hx])) h2 hdo
    rw [hfold]
    refine ⟨fun fr => g (writeCoord3 (st.currentCoord * 3)
        (jsParseFloatOpt ((jsSplitWs (jsTrim l)).get? 2))
        (jsParseFloatOpt ((jsSplitWs (jsTrim l)).get? 3))
        (jsParseFloatOpt ((jsSplitWs (jsTrim l)).get? 4)) fr),
      fun fr => (hg _).trans (writeCoord3_length _ _ _ _ fr), ?_⟩
    dsimp only
    rw [setLast_setLast,
      show st.currentCoord + 1 + t.length = st.currentCoord + (t.length + 1) from by omega,
      List.length_cons]

/-- Folding data lines in ATOM state with `doFrames` unset (the first model):
frame writes as above, plus one stored atom row per line. -/
lemma foldl_atoms_store (ls : List String) :
    ∀ st : ScanState, (∀ l ∈ ls, isDataLine l) → st.currentRecordType = 2 →
      st.doFrames = false →
      ∃ (g : Frame → Frame) (rows : List AtomRow),
        (∀ fr, (g fr).length = fr.length) ∧ rows.length = ls.length ∧
        ls.foldl (scanLine false true) st =
          { st with frames := setLast st.frames g,
                    currentCoord := st.currentCoord + ls.length,
                    atoms := st.atoms ++ rows } := by
  induction ls with
  | nil =>
    intro st _ _ _
    refine ⟨fun f => f, [], fun _ => rfl, rfl, ?_⟩
    rw [setLast_id]
    simp
  | cons l t ih =>
    intro st hls h2 hdo
    rw [List.foldl_cons, scanLine_data_rt2 false true st l (hls l (by simp)) h2,
      scanAtom_traj_store st (jsTrim l) hdo]
    obtain ⟨g, rows, hg, hrows, hfold⟩ := ih
      { st with
          frames := setLast st.frames
            (writeCoord3 (st.currentCoord * 3) (jsParseFloatOpt ((jsSplitWs (jsTrim l)).get? 2))
              (jsParseFloatOpt ((jsSplitWs (jsTrim l)).get? 3))
              (jsParseFloatOpt ((jsSplitWs (jsTrim l)).get? 4))),
          currentCoord := st.currentCoord + 1,
          atoms := st.atoms ++ [atomOfTokens (jsSplitWs (jsTrim l)) st.modelIdx] }
      (fun x hx => hls x (by simp [hx])) h2 hdo
    rw [hfold]
    refine ⟨fun fr => g (writeCoord3 (st.currentCoord * 3)
        (jsParseFloatOpt ((jsSplitWs (jsTrim l)).get? 2))
        (jsParseFloatOpt ((jsSplitWs (jsTrim l)).get? 3))
        (jsParseFloatOpt ((jsSplitWs (jsTrim l)).get? 4)) fr),
      atomOfTokens (jsSplitWs (jsTrim l)) st.modelIdx :: rows,
      fun fr => (hg _).trans (writeCoord3_length _ _ _ _ fr), by simp [hrows], ?_⟩
    dsimp only
    rw [setLast_setLast,
      show st.currentCoord + 1 + t.length = st.currentCoord + (t.length + 1) from by omega,
      show st.atoms ++ [atomOfTokens (jsSplitWs (jsTrim l)) st.modelIdx] ++ rows =
        st.atoms ++ (atomOfTokens (jsSplitWs (jsTrim l)) st.modelIdx :: rows) from by simp,
      List.length_cons]

/-- Folding data lines in BOND state with the trajectory policy active and a
positive model index: everything is skipped. -/
lemma foldl_bonds_skip (ls : List String) :
    ∀ st : ScanState, (∀ l ∈ ls, isDataLine l) → st.currentRecordType = 3 →
      st.modelIdx > 0 →
      ls.foldl (scanLine false true) st = st := by
  induction ls with
  | nil => intro st _ _ _; rfl
  | cons l t ih =>
    intro st hls h3 hm
    rw [List.foldl_cons, scanLine_bond_skip st l (hls l (by simp)) h3 hm,
      ih st (fun x hx => hls x (by simp [hx])) h3 hm]

/-- Folding data lines in BOND state with no skip active: one stored bond row
per line, nothing else changed. -/
lemma foldl_bonds_store (ls : List String) :
    ∀ st : ScanState, (∀ l ∈ ls, isDataLine l) → st.currentRecordType = 3 →
      ¬(st.modelIdx > 0) →
      ∃ rows : List BondRow, rows.length = ls.length ∧
        ls.foldl (scanLine false true) st = { st with bonds := st.bonds ++ rows } := by
  induction ls with
  | nil => intro st _ _ _; exact ⟨[], rfl, by simp⟩
  | cons l t ih =>
    intro st hls h3 hm
    rw [List.foldl_cons, scanLine_bond_step false true st l (hls l (by simp)) h3
      (by simp) (by simp [hm])]
    obtain ⟨rows, hrows, hfold⟩ := ih
      { st with bonds := st.bonds ++ [bondOfLine st l] }
      (fun x hx => hls x (by simp [hx])) h3 hm
    rw [hfold]
    refine ⟨bondOfLine st l :: rows, by simp [hrows], ?_⟩
    dsimp only
    rw [show st.bonds ++ [bondOfLine st l] ++ rows =
      st.bonds ++ (bondOfLine st l :: rows) from by simp]

/-- Scanning the first model block of a generated document from the initial
state: one frame of length `3 * N`, one atom row per atom line, one bond row
per bond line. -/
lemma scan_model_first (m : ModelSpec) (N : ℕ)
    (hname : isDataLine m.name) (hcl : isDataLine m.countLine)
    (hcount : jsParseIntOpt ((jsSplitWs (jsTrim m.countLine)).get? 0) = some (N : Int))
    (hat : ∀ l ∈ m.atomLines, isDataLine l) (hbl : ∀ l ∈ m.bondLines, isDataLine l) :
    ∃ (fr : Frame) (rows : List AtomRow) (brows : List BondRow),
      fr.length = 3 * N ∧ rows.length = m.atomLines.length ∧
      brows.length = m.bondLines.length ∧
      (modelLines m).foldl (scanLine false true) {} =
        ⟨3, 2, 0, 0, some (N : Int), false, m.atomLines.length, [fr],
          jsTrim m.name, jsTrim m.name, rows, brows, {}, []⟩ := by
  have hmod : modelLines m = "@<TRIPOS>MOLECULE" :: m.name :: m.countLine ::
      "@<TRIPOS>ATOM" :: (m.atomLines ++ ("@<TRIPOS>BOND" :: m.bondLines)) := by
    simp [modelLines]
  rw [hmod, List.foldl_cons, scanLine_marker_molecule false true {}]
  dsimp only
  rw [show (-1 + 1 : Int) = 0 from by decide]
  rw [List.foldl_cons,
    scanLine_data_rt1 false true ⟨1, 0, 0, 0, some 0, false, 0, [], "", "", [], [], {}, []⟩
      m.name hname rfl,
    scanMolecule_line0 ⟨1, 0, 0, 0, some 0, false, 0, [], "", "", [], [], {}, []⟩
      (jsTrim m.name) rfl]
  dsimp only
  rw [List.foldl_cons,
    scanLine_data_rt1 false true
      ⟨1, 1, 0, 0, some 0, false, 0, [], jsTrim m.name, jsTrim m.name, [], [], {}, []⟩
      m.countLine hcl rfl,
    scanMolecule_line1
      ⟨1, 1, 0, 0, some 0, false, 0, [], jsTrim m.name, jsTrim m.name, [], [], {}, []⟩
      (jsTrim m.countLine) rfl]
  dsimp only
  rw [hcount]
  rw [List.foldl_cons, scanLine_marker_atom_traj false
    ⟨1, 2, 0, 0, some (N : Int), false, 0, [], jsTrim m.name, jsTrim m.name, [], [], {}, []⟩]
  dsimp only
  rw [show (if (0 : Int) > 0 then true else false) = false from by decide]
  rw [List.length_nil, List.foldl_append]
  obtain ⟨g, rows, hg, hrows, hfold⟩ := foldl_atoms_store m.atomLines
    ⟨2, 2, 0, 0, some (N : Int), false, 0,
      [] ++ [List.replicate (frameSize (some (N : Int))) (some 0)],
      jsTrim m.name, jsTrim m.name, [], [], {}, []⟩
    hat rfl rfl
  rw [hfold]
  dsimp only [setLast]
  rw [List.foldl_cons, scanLine_marker_bond false true _]
  dsimp only
  obtain ⟨brows, hbrows, hbfold⟩ := foldl_bonds_store m.bondLines
    ⟨3, 2, 0, 0, some (N : Int), false, 0 + m.atomLines.length,
      [g (List.replicate (frameSize (some (N : Int))) (some 0))],
      jsTrim m.name, jsTrim m.name, [] ++ rows, [], {}, []⟩
    hbl rfl (by simp)
  rw [hbfold]
  dsimp only
  refine ⟨g (List.replicate (frameSize (some (N : Int))) (some 0)), rows, brows,
    ?_, hrows, hbrows, ?_⟩
  · rw [hg, List.length_replicate]
    show (N : Int).toNat * 3 = 3 * N
    rw [Int.toNat_natCast]
    omega
  · rw [Nat.zero_add]
    simp

/-- Scanning a subsequent model block (model index already non-negative) in
trajectory mode: one new frame of length `3 * N` is pushed, and the atom,
bond, cell and warning stores are untouched. -/
lemma scan_model_later (m : ModelSpec) (N : ℕ) (st : ScanState)
    (hm : st.modelIdx ≥ 0)
    (hname : isDataLine m.name) (hcl : isDataLine m.countLine)
    (hcount : jsParseIntOpt ((jsSplitWs (jsTrim m.countLine)).get? 0) = some (N : Int))
    (hat : ∀ l ∈ m.atomLines, isDataLine l) (hbl : ∀ l ∈ m.bondLines, isDataLine l) :
    ∃ fr : Frame, fr.length = 3 * N ∧
      (modelLines m).foldl (scanLine false true) st =
        ⟨3, 2, st.atoms.length, st.modelIdx + 1, some (N : Int), true,
          m.atomLines.length, st.frames ++ [fr], jsTrim m.name, jsTrim m.name,
          st.atoms, st.bonds, st.cell, st.warnings⟩ := by
  have hmod : modelLines m = "@<TRIPOS>MOLECULE" :: m.name :: m.countLine ::
      "@<TRIPOS>ATOM" :: (m.atomLines ++ ("@<TRIPOS>BOND" :: m.bondLines)) := by
    simp [modelLines]
  rw [hmod, List.foldl_cons, scanLine_marker_molecule false true st]
  try dsimp only
  rw [List.foldl_cons,
    scanLine_data_rt1 false true
      ⟨1, 0, st.modelAtomIdxStart, st.modelIdx + 1, st.numAtoms, st.doFrames,
        st.currentCoord, st.frames, st.title, st.sid, st.atoms, st.bonds, st.cell,
        st.warnings⟩
      m.name hname rfl,
    scanMolecule_line0
      ⟨1, 0, st.modelAtomIdxStart, st.modelIdx + 1, st.numAtoms, st.doFrames,
        st.currentCoord, st.frames, st.title, st.sid, st.atoms, st.bonds, st.cell,
        st.warnings⟩
      (jsTrim m.name) rfl]
  try dsimp only
  rw [List.foldl_cons,
    scanLine_data_rt1 false true
      ⟨1, 1, st.modelAtomIdxStart, st.modelIdx + 1, st.numAtoms, st.doFrames,
        st.currentCoord, st.frames, jsTrim m.name, jsTrim m.name, st.atoms, st.bonds,
        st.cell, st.warnings⟩
      m.countLine hcl rfl,
    scanMolecule_line1
      ⟨1, 1, st.modelAtomIdxStart, st.modelIdx + 1, st.numAtoms, st.doFrames,
        st.currentCoord, st.frames, jsTrim m.name, jsTrim m.name, st.atoms, st.bonds,
        st.cell, st.warnings⟩
      (jsTrim m.countLine) rfl]
  try dsimp only
  rw [hcount]
  rw [List.foldl_cons, scanLine_marker_atom_traj false
    ⟨1, 2, st.modelAtomIdxStart, st.modelIdx + 1, some (N : Int), st.doFrames,
      st.currentCoord, st.frames, jsTrim m.name, jsTrim m.name, st.atoms, st.bonds,
      st.cell, st.warnings⟩]
  try dsimp only
  rw [if_pos (show st.modelIdx + 1 > 0 from by omega)]
  rw [List.foldl_append]
  obtain ⟨g, hg, hfold⟩ := foldl_atoms_skip m.atomLines
    ⟨2, 2, st.atoms.length, st.modelIdx + 1, some (N : Int), true, 0,
      st.frames ++ [List.replicate (frameSize (some (N : Int))) (some 0)],
      jsTrim m.name, jsTrim m.name, st.atoms, st.bonds, st.cell, st.warnings⟩
    hat rfl rfl
  rw [hfold]
  try dsimp only
  rw [List.foldl_cons, scanLine_marker_bond false true _]
  try dsimp only
  rw [setLast_append_singleton st.frames _ g]
  rw [foldl_bonds_skip m.bondLines
    ⟨3, 2, st.atoms.length, st.modelIdx + 1, some (N : Int), true,
      0 + m.atomLines.length,
      st.frames ++ [g (List.replicate (frameSize (some (N : Int))) (some 0))],
      jsTrim m.name, jsTrim m.name, st.atoms, st.bonds, st.cell, st.warnings⟩
    hbl rfl (by omega : st.modelIdx + 1 > 0)]
  refine ⟨g (List.replicate (frameSize (some (N : Int))) (some 0)), ?_, ?_⟩
  · rw [hg, List.length_replicate]
    show (N : Int).toNat * 3 = 3 * N
    rw [Int.toNat_natCast]
    omega
  · rw [Nat.zero_add]

/-- Scanning the remaining model blocks in trajectory mode: one frame of
length `3 * N` per model, atom and bond stores untouched. -/
lemma scan_models_tail (N : ℕ) :
    ∀ (ms : List ModelSpec) (st : ScanState), st.modelIdx ≥ 0 →
      (∀ m ∈ ms, isDataLine m.name) → (∀ m ∈ ms, isDataLine m.countLine) →
      (∀ m ∈ ms, jsParseIntOpt ((jsSplitWs (jsTrim m.countLine)).get? 0) =
        some (N : Int)) →
      (∀ m ∈ ms, ∀ l ∈ m.atomLines, isDataLine l) →
      (∀ m ∈ ms, ∀ l ∈ m.bondLines, isDataLine l) →
      ∃ frs : List Frame, frs.length = ms.length ∧
        (∀ fr ∈ frs, fr.length = 3 * N) ∧
        ((docLines ms).foldl (scanLine false true) st).frames = st.frames ++ frs ∧
        ((docLines ms).foldl (scanLine false true) st).atoms = st.atoms ∧
        ((docLines ms).foldl (scanLine false true) st).bonds = st.bonds := by
  intro ms
  induction ms with
  | nil =>
    intro st _ _ _ _ _ _
    exact ⟨[], rfl, by simp, by simp [docLines], by simp [docLines], by simp [docLines]⟩
  | cons m t ih =>
    intro st hm h1 h2 h3 h4 h5
    have hdoc : docLines (m :: t) = modelLines m ++ docLines t := by
      simp [docLines]
    rw [hdoc, List.foldl_append]
    obtain ⟨fr, hfr, hfold⟩ := scan_model_later m N st hm (h1 m (by simp))
      (h2 m (by simp)) (h3 m (by simp)) (h4 m (by simp)) (h5 m (by simp))
    rw [hfold]
    obtain ⟨frs, hlen, hfl, hfrs, hats, hbds⟩ := ih
      ⟨3, 2, st.atoms.length, st.modelIdx + 1, some (N : Int), true,
        m.atomLines.length, st.frames ++ [fr], jsTrim m.name, jsTrim m.name,
        st.atoms, st.bonds, st.cell, st.warnings⟩
      (by dsimp only; omega)
      (fun x hx => h1 x (by simp [hx])) (fun x hx => h2 x (by simp [hx]))
      (fun x hx => h3 x (by simp [hx])) (fun x hx => h4 x (by simp [hx]))
      (fun x hx => h5 x (by simp [hx]))
    refine ⟨fr :: frs, by simp [hlen], ?_, ?_, hats, hbds⟩
    · intro fr2 hfr2
      rcases List.mem_cons.mp hfr2 with h | h
      · rw [h]; exact hfr
      · exact hfl fr2 h
    · rw [hfrs]
      simp

/-- Claim C5 (amended): a generated document with `k` well-formed models,
each declaring the same atom count `N` as the first and each atom line
carrying at least six whitespace-separated fields (so the `TypeError` the
source throws on shorter atom lines cannot fire), parsed with the
trajectory policy, produces one frame per model **including the first**
(`k` frames in total), each a flat buffer of length `3 * N`, while the atom
and bond stores hold only the first model's rows. -/
theorem C5_trajectory_frames (m0 : ModelSpec) (rest : List ModelSpec) (N : ℕ)
    (hname : ∀ m ∈ m0 :: rest, isDataLine m.name ∧ '\n' ∉ m.name.data)
    (hcl : ∀ m ∈ m0 :: rest, isDataLine m.countLine ∧ '\n' ∉ m.countLine.data)
    (hcount : ∀ m ∈ m0 :: rest,
      jsParseIntOpt ((jsSplitWs (jsTrim m.countLine)).get? 0) = some (N : Int))
    (hat : ∀ m ∈ m0 :: rest, ∀ l ∈ m.atomLines, isDataLine l ∧ '\n' ∉ l.data)
    (_hat6 : ∀ m ∈ m0 :: rest, ∀ l ∈ m.atomLines, 6 ≤ (jsSplitWs (jsTrim l)).length)
    (hbl : ∀ m ∈ m0 :: rest, ∀ l ∈ m.bondLines, isDataLine l ∧ '\n' ∉ l.data)
    (derive : CellDict → UCMats) (centerOf : List AtomRow → Vec3)
    (ops cd : String) :
    (ccdcParse false true derive centerOf
      ⟨docText (m0 :: rest), ops, cd⟩).frames.length = (m0 :: rest).length ∧
    (∀ fr ∈ (ccdcParse false true derive centerOf
      ⟨docText (m0 :: rest), ops, cd⟩).frames, fr.length = 3 * N) ∧
    (ccdcParse false true derive centerOf
      ⟨docText (m0 :: rest), ops, cd⟩).atoms.length = m0.atomLines.length ∧
    (ccdcParse false true derive centerOf
      ⟨docText (m0 :: rest), ops, cd⟩).bonds.length = m0.bondLines.length := by
  have hnl : ∀ l ∈ docLines (m0 :: rest), '\n' ∉ l.data := by
    intro l hl
    have key : ∀ m ∈ m0 :: rest, l ∈ modelLines m → '\n' ∉ l.data := by
      intro m hmm hlb
      simp only [modelLines, List.mem_append, List.mem_cons, List.not_mem_nil,
        or_false] at hlb
      rcases hlb with ((h | h | h | h) | h) | (h | h)
      · rw [h]; decide
      · rw [h]; exact (hname m hmm).2
      · rw [h]; exact (hcl m hmm).2
      · rw [h]; decide
      · exact (hat m hmm l h).2
      · rw [h]; decide
      · exact (hbl m hmm l h).2
    rcases (show l ∈ modelLines m0 ∨ ∃ a ∈ rest, l ∈ modelLines a from by
        simpa [docLines] using hl) with hb | ⟨m, hmm, hb⟩
    · exact key m0 (by simp) hb
    · exact key m (by simp [hmm]) hb
  have hne : docLines (m0 :: rest) ≠ [] := by
    simp [docLines, modelLines]
  have hsplit : jsSplitChar '\n' (docText (m0 :: rest)) = docLines (m0 :: rest) :=
    jsSplitChar_docText (m0 :: rest) hne hnl
  have hscan : scanDoc false true (docText (m0 :: rest)) =
      (docLines (m0 :: rest)).foldl (scanLine false true) {} := by
    unfold scanDoc
    rw [hsplit]
  obtain ⟨fr0, rows, brows, hfr0, hrows, hbrows, hfirst⟩ :=
    scan_model_first m0 N (hname m0 (by simp)).1 (hcl m0 (by simp)).1
      (hcount m0 (by simp)) (fun l hlx => (hat m0 (by simp) l hlx).1)
      (fun l hlx => (hbl m0 (by simp) l hlx).1)
  obtain ⟨frs, hlen, hfl, hfrs, hats, hbds⟩ := scan_models_tail N rest
    ⟨3, 2, 0, 0, some (N : Int), false, m0.atomLines.length, [fr0],
      jsTrim m0.name, jsTrim m0.name, rows, brows, {}, []⟩
    (by dsimp only; omega)
    (fun x hx => (hname x (by simp [hx])).1) (fun x hx => (hcl x (by simp [hx])).1)
    (fun x hx => hcount x (by simp [hx]))
    (fun x hx l hlx => (hat x (by simp [hx]) l hlx).1)
    (fun x hx l hlx => (hbl x (by simp [hx]) l hlx).1)
  have hdoc : docLines (m0 :: rest) = modelLines m0 ++ docLines rest := by
    simp [docLines]
  have hfold : scanDoc false true (docText (m0 :: rest)) =
      (docLines rest).foldl (scanLine false true)
        ⟨3, 2, 0, 0, some (N : Int), false, m0.atomLines.length, [fr0],
          jsTrim m0.name, jsTrim m0.name, rows, brows, {}, []⟩ := by
    rw [hscan, hdoc, List.foldl_append, hfirst]
  have hframes : (scanDoc false true (docText (m0 :: rest))).frames = fr0 :: frs := by
    rw [hfold, hfrs]
    simp
  have hatoms : (scanDoc false true (docText (m0 :: rest))).atoms = rows := by
    rw [hfold, hats]
  have hbonds : (scanDoc false true (docText (m0 :: rest))).bonds = brows := by
    rw [hfold, hbds]
  refine ⟨?_, ?_, ?_, ?_⟩
  · show (scanDoc false true (docText (m0 :: rest))).frames.length = _
    rw [hframes]
    simp [hlen]
  · intro fr hfr
    have hfr2 : fr ∈ fr0 :: frs := by
      rw [← hframes]
      exact hfr
    rcases List.mem_cons.mp hfr2 with h | h
    · rw [h]; exact hfr0
    · exact hfl fr h
  · show (scanDoc false true (docText (m0 :: rest))).atoms.length = _
    rw [hatoms, hrows]
  · show (scanDoc false true (docText (m0 :: rest))).bonds.length = _
    rw [hbonds, hbrows]

/-- A concrete two-model trajectory document: first model. -/
def trajModelA : ModelSpec := ⟨"m1", "1 1", ["1 C1 0.0 0.0 0.0 C"], ["1 1 1 1"]⟩

/-- A concrete two-model trajectory document: second model. -/
def trajModelB : ModelSpec := ⟨"m2", "1 1", ["1 C1 1.0 0.0 0.0 C"], ["1 1 1 1"]⟩

/-- Claim C5 (witness): the amended theorem applied to the concrete
two-model document. -/
theorem C5_trajectory_frames_witness :
    (ccdcParse false true trivialDerive trivialCenter
      ⟨docText [trajModelA, trajModelB], "X,Y,Z", ""⟩).frames.length = 2 ∧
    (∀ fr ∈ (ccdcParse false true trivialDerive trivialCenter
      ⟨docText [trajModelA, trajModelB], "X,Y,Z", ""⟩).frames, fr.length = 3 * 1) ∧
    (ccdcParse false true trivialDerive trivialCenter
      ⟨docText [trajModelA, trajModelB], "X,Y,Z", ""⟩).atoms.length = 1 ∧
    (ccdcParse false true trivialDerive trivialCenter
      ⟨docText [trajModelA, trajModelB], "X,Y,Z", ""⟩).bonds.length = 1 :=
  C5_trajectory_frames trajModelA [trajModelB] 1
    (by simp only [isDataLine]; decide) (by simp only [isDataLine]; decide)
    (by decide) (by simp only [isDataLine]; decide) (by decide)
    (by simp only [isDataLine]; decide)
    trivialDerive trivialCenter "X,Y,Z" ""

set_option maxRecDepth 4000 in
/-- Claim C5 (counterexample): the claim says a `k`-model trajectory document
produces one frame per model **beyond the first** (`k - 1` frames); the code
pushes a frame at **every** ATOM marker, the first model's included, so the
concrete two-model document yields 2 frames, not 1. -/
theorem C5_counterexample :
    (ccdcParse false true trivialDerive trivialCenter
      ⟨docText [trajModelA, trajModelB], "X,Y,Z", ""⟩).frames.length = 2 ∧
    (2 : ℕ) ≠ 1 := by
  exact ⟨rfl, by decide⟩

/-- Claim C7 (counterexample): the claim states that a bond line with an
unrecognized order token is reported as a recoverable warning; the scanner
contains no warning call — scanning `"1 1 2 xx"` in BOND state leaves the
warning log empty while storing the bond with an absent order. -/
theorem C7_counterexample :
    (scanLine false false { currentRecordType := 3 } "1 1 2 xx").warnings = [] ∧
    (scanLine false false { currentRecordType := 3 } "1 1 2 xx").bonds.map
      BondRow.order = [none] := by
  decide

/-- Claim C4 (witness): the count statement applied to a concrete unit cell,
a duplicated operator list (three operators, two distinct) and an NCS list
of one matrix. -/
theorem C4_assembly_counts_witness :
    ∃ u sc,
      buildUnitcellAssembly (some ⟨matIdentity, matIdentity⟩) ⟨0, 0, 0⟩
        (some [matIdentity]) [["X", "Y", "Z"], ["-X", "-Y", "-Z"], ["X", "Y", "Z"]] =
        (some u, some sc) ∧
      u.length = distinctOperatorCount
        [["X", "Y", "Z"], ["-X", "-Y", "-Z"], ["X", "Y", "Z"]] * ncsCount (some [matIdentity]) ∧
      sc.length = 27 * (distinctOperatorCount
        [["X", "Y", "Z"], ["-X", "-Y", "-Z"], ["X", "Y", "Z"]] * ncsCount (some [matIdentity])) :=
  C4_assembly_counts ⟨matIdentity, matIdentity⟩ ⟨0, 0, 0⟩ (some [matIdentity])
    [["X", "Y", "Z"], ["-X", "-Y", "-Z"], ["X", "Y", "Z"]]

/-- Claim C10 (witness): the case-insensitivity statement applied to the
lowercase operator string `"x,y,z;-x,-y,1/2+z"`. -/
theorem C10_case_insensitive_witness :
    parseEnvelopeOperators (jsToUpperCase "x,y,z;-x,-y,1/2+z") =
      parseEnvelopeOperators "x,y,z;-x,-y,1/2+z" ∧
    setSymmetryOperations (parseEnvelopeOperators (jsToUpperCase "x,y,z;-x,-y,1/2+z")) =
      setSymmetryOperations (parseEnvelopeOperators "x,y,z;-x,-y,1/2+z") :=
  C10_case_insensitive "x,y,z;-x,-y,1/2+z"
